import Mathlib

/-!
Shallow embedding of the sfdk property mutation engine and the
reconciliation algorithms of the Sailfish SDK command line tool
(command.cpp / buildengine.cpp), together with theorems checking the
natural-language specification against this embedding.

Machine integers are modelled as Int with the explicit 32-bit range
checks performed by QString::toInt; strings are Lean String values and
Qt string helpers (left / mid / indexOf / chop) are modelled on the
character list.  Asynchronous remote setters are collaborator contracts
consumed by this code, not implemented in it; they are modelled as
always-succeeding state updates that are recorded in an explicit event
trace, so that theorems can speak about which setters were invoked.
-/

namespace Sfdk

/-! ## Qt string helpers -/

/-- QString::indexOf(QChar): index of the first occurrence, -1 when absent. -/
def qIndexOf (s : String) (c : Char) : Int :=
  match s.toList.findIdx? (· = c) with
  | some i => (i : Int)
  | none => -1

/-- QString::left(n): the whole string when n is negative or past the end. -/
def qLeft (s : String) (n : Int) : String :=
  if n < 0 ∨ (s.toList.length : Int) ≤ n then s
  else String.mk (s.toList.take n.toNat)

/-- QString::mid(pos) for a non-negative position. -/
def qMid (s : String) (pos : Int) : String :=
  String.mk (s.toList.drop pos.toNat)

/-- QString::endsWith(QChar('+')). -/
def qEndsWithPlus (s : String) : Bool :=
  s.toList.getLast? = some '+'

/-- QString::chop(1): remove the last character. -/
def qChop1 (s : String) : String :=
  String.mk s.toList.dropLast

/-- The characters matched by QChar::isSpace / the [[:space:]] class. -/
def isQtSpace (c : Char) : Bool :=
  c = ' ' ∨ c = '\t' ∨ c = '\n' ∨ c = '\x0b' ∨ c = '\x0c' ∨ c = '\r'

/-- Strip leading and trailing whitespace from a character list. -/
def trimChars (cs : List Char) : List Char :=
  ((cs.dropWhile isQtSpace).reverse.dropWhile isQtSpace).reverse

/-- Split a character list at every separator character; like QString::split
without Qt::SkipEmptyParts, empty fields are kept. -/
def splitChars (p : Char → Bool) (cs : List Char) : List (List Char) :=
  cs.foldr
    (fun c acc =>
      if p c then [] :: acc
      else match acc with
        | g :: gs => (c :: g) :: gs
        | [] => [[c]])
    [[]]

/-- Decimal digit run to a natural number (none on empty or non-digit input). -/
def digitsToNat? (cs : List Char) : Option Nat :=
  if cs ≠ [] ∧ cs.all Char.isDigit then
    some (cs.foldl (fun acc c => acc * 10 + (c.toNat - 48)) 0)
  else none

/-- Model of QString::toInt (base 10): optional sign, decimal digits,
leading/trailing whitespace ignored, failure outside the 32-bit int range. -/
def qStringToInt (s : String) : Option Int :=
  match trimChars s.toList with
  | '+' :: rest => (digitsToNat? rest).bind fun n =>
      if n ≤ 2147483647 then some (n : Int) else none
  | '-' :: rest => (digitsToNat? rest).bind fun n =>
      if n ≤ 2147483648 then some (-(n : Int)) else none
  | cs => (digitsToNat? cs).bind fun n =>
      if n ≤ 2147483647 then some (n : Int) else none

/-! ## Property names (anonymous-namespace constants in command.cpp) -/

def VM_MEMORY_SIZE_MB : String := "vm.memory-size"
def VM_SWAP_SIZE_MB : String := "vm.swap-size"
def VM_CPU_COUNT : String := "vm.cpu-count"
def VM_STORAGE_SIZE_MB : String := "vm.storage-size"
def VM_FREE_STORAGE_SIZE_MB : String := "vm.free-storage-size"

def EMULATOR_DEVICE_MODEL : String := "device-model"
def EMULATOR_ORIENTATION : String := "orientation"
def EMULATOR_DOWNSCALE : String := "downscale"
def EMULATOR_SSH_PORT : String := "ssh.port"
def EMULATOR_SSH_TIMEOUT : String := "ssh.timeout"

def ENGINE_HOST_NAME : String := "host-name"
def ENGINE_BUILD_ENVIRONMENT_FILTER : String := "environment.forward"
def ENGINE_SSH_PORT : String := "ssh.port"
def ENGINE_SSH_TIMEOUT : String := "ssh.timeout"
def ENGINE_DBUS_PORT : String := "dbus.port"

/-! ## Error messages (PropertiesAccessor static message functions) -/

inductive ErrorMessage where
  | positiveIntExpected (s : String)
  | nonNegativeIntExpected (s : String)
  | valueTooBig
  | valueCannotBeDecreased
  | valueCannotBeIncreased
  | valueEmpty
  | unknownProperty
  | readOnlyProperty
  | privilegedPortsMayNotBeUsed
  | oneOfExpected (expected : List String) (got : String)
  | stepCannotBeSmallerThanSize
  | failedToDetermineFreeStorageSize
  | failedToSetSomeProperties
  | assignmentExpected (s : String)
  | noSuchDeviceModel (s : String)
  | notAWellFormedHostName (s : String)
  | custom (s : String)
deriving DecidableEq

/-! ## Integer parsing helpers of PropertiesAccessor

QString::toInt writes 0 into the out parameter on conversion failure, so
the helpers report the written value even when they fail; the staged
accessor fields are updated with that value exactly as the C++ code does. -/

structure ParseIntResult where
  ok : Bool
  out : Int
  error : Option ErrorMessage
deriving DecidableEq

def parsePositiveInt (s : String) : ParseIntResult :=
  match qStringToInt s with
  | some v =>
    if v ≤ 0 then ⟨false, v, some (.positiveIntExpected s)⟩
    else ⟨true, v, none⟩
  | none => ⟨false, 0, some (.positiveIntExpected s)⟩

def parseNonNegativeInt (s : String) : ParseIntResult :=
  match qStringToInt s with
  | some v =>
    if v < 0 then ⟨false, v, some (.nonNegativeIntExpected s)⟩
    else ⟨true, v, none⟩
  | none => ⟨false, 0, some (.nonNegativeIntExpected s)⟩

def parsePortNumber (s : String) : ParseIntResult :=
  let r := parsePositiveInt s
  if ¬ r.ok then ⟨false, 0, r.error⟩
  else if r.out > 65535 then ⟨false, 0, some .valueTooBig⟩
  else if r.out < 1024 then ⟨false, 0, some .privilegedPortsMayNotBeUsed⟩
  else ⟨true, r.out, none⟩

/-- parseWithDictionary: look the string up in a bidirectional dictionary. -/
def parseWithDictionary [DecidableEq α] (dict : List (α × String)) (s : String) :
    Option α × Option ErrorMessage :=
  match dict.find? (fun item => item.2 = s) with
  | some it => (some it.1, none)
  | none => (none, some (.oneOfExpected (dict.map Prod.snd) s))

/-- showWithDictionary (the QTC_ASSERT fallback returns the empty string). -/
def showWithDictionary [DecidableEq α] (dict : List (α × String)) (v : α) : String :=
  match dict.find? (fun item => item.1 = v) with
  | some it => it.2
  | none => ""

inductive Orientation | vertical | horizontal
deriving DecidableEq

def booleanDictionary : List (Bool × String) := [(true, "yes"), (false, "no")]

def orientationDictionary : List (Orientation × String) :=
  [(.vertical, "portrait"), (.horizontal, "landscape")]

/-! ## Virtual machine model -/

/-- VirtualMachine::Features capability flags relevant to property mutation. -/
structure VmFeatures where
  limitMemorySize : Bool
  swapMemory : Bool
  shrinkStorageSize : Bool
  growStorageSize : Bool
deriving DecidableEq

/-- The configuration of a virtual machine as observable through its getters.
freeStorageSizeMb models the result of the freeStorageSizeMb() query; a
negative value means the current free storage size could not be determined. -/
structure VirtualMachine where
  features : VmFeatures
  memorySizeMb : Int
  swapSizeMb : Int
  cpuCount : Int
  storageSizeMb : Int
  freeStorageSizeMb : Int
deriving DecidableEq

/-- Host capacities (VirtualMachine::availableMemorySizeMb / availableCpuCount). -/
structure HostEnv where
  availableMemorySizeMb : Int
  availableCpuCount : Int
deriving DecidableEq

/-! ## VirtualMachinePropertiesAccessor -/

/-- The staged private fields of VirtualMachinePropertiesAccessor. -/
structure VmAccessorState where
  memorySizeMb : Int
  swapSizeMb : Int
  cpuCount : Int
  storageSizeMb : Int
  freeSizeMb : Int
  incrementMb : Int
deriving DecidableEq

/-- Constructor: the staged values start out as the resource's current values. -/
def VmAccessorState.init (vm : VirtualMachine) : VmAccessorState :=
  ⟨vm.memorySizeMb, vm.swapSizeMb, vm.cpuCount, vm.storageSizeMb, 0, 0⟩

inductive PrepareResult | Ignored | Prepared | Failed
deriving DecidableEq

/-- The outcome of one prepareSet call: the PrepareResult return value, the
accessor state after the call, and the values written through the needsVmOff
and errorString out-parameters. -/
structure PrepareOutcome (σ : Type) where
  result : PrepareResult
  state : σ
  needsVmOff : Bool
  error : Option ErrorMessage
deriving DecidableEq

/-- VirtualMachinePropertiesAccessor::prepareSet. -/
def vmPrepareSet (host : HostEnv) (vm : VirtualMachine) (st : VmAccessorState)
    (name value : String) : PrepareOutcome VmAccessorState :=
  -- *needsVmOff = true; (overwritten to false only in the free-storage no-op case)
  if name = VM_MEMORY_SIZE_MB then
    if ¬ vm.features.limitMemorySize then
      ⟨.Failed, st, true, some .readOnlyProperty⟩
    else
      let r := parsePositiveInt value
      let st := { st with memorySizeMb := r.out }
      if ¬ r.ok then ⟨.Failed, st, true, r.error⟩
      else if st.memorySizeMb > host.availableMemorySizeMb then
        ⟨.Failed, st, true, some .valueTooBig⟩
      else ⟨.Prepared, st, true, none⟩
  else if name = VM_SWAP_SIZE_MB ∧ vm.features.swapMemory then
    let r := parseNonNegativeInt value
    let st := { st with swapSizeMb := r.out }
    if ¬ r.ok then ⟨.Failed, st, true, r.error⟩
    else if st.swapSizeMb > st.storageSizeMb then
      ⟨.Failed, st, true, some .valueTooBig⟩
    else ⟨.Prepared, st, true, none⟩
  else if name = VM_CPU_COUNT then
    if ¬ vm.features.limitMemorySize then
      ⟨.Failed, st, true, some .readOnlyProperty⟩
    else
      let r := parsePositiveInt value
      let st := { st with cpuCount := r.out }
      if ¬ r.ok then ⟨.Failed, st, true, r.error⟩
      else if st.cpuCount > host.availableCpuCount then
        ⟨.Failed, st, true, some .valueTooBig⟩
      else ⟨.Prepared, st, true, none⟩
  else if name = VM_STORAGE_SIZE_MB then
    let r := parsePositiveInt value
    let st := { st with storageSizeMb := r.out }
    if ¬ r.ok then ⟨.Failed, st, true, r.error⟩
    else if st.storageSizeMb < vm.storageSizeMb ∧ ¬ vm.features.shrinkStorageSize then
      ⟨.Failed, st, true, some .valueCannotBeDecreased⟩
    else if st.storageSizeMb > vm.storageSizeMb ∧ ¬ vm.features.growStorageSize then
      ⟨.Failed, st, true, some .valueCannotBeIncreased⟩
    else ⟨.Prepared, st, true, none⟩
  else if name = VM_FREE_STORAGE_SIZE_MB then
    let commaIndex := qIndexOf value ','
    let freeSize := qLeft value commaIndex
    if ¬ qEndsWithPlus freeSize then
      ⟨.Failed, st, true, some .valueCannotBeDecreased⟩
    else
      let freeSize := qChop1 freeSize
      let r := parsePositiveInt freeSize
      let st := { st with freeSizeMb := r.out }
      if ¬ r.ok then ⟨.Failed, st, true, r.error⟩
      else
        let afterIncrement : PrepareOutcome VmAccessorState ⊕ VmAccessorState :=
          if commaIndex > 0 then
            let r2 := parsePositiveInt (qMid value (commaIndex + 1))
            let st2 := { st with incrementMb := r2.out }
            if ¬ r2.ok then .inl ⟨.Failed, st2, true, r2.error⟩
            else if st2.incrementMb < st2.freeSizeMb then
              .inl ⟨.Failed, st2, true, some .stepCannotBeSmallerThanSize⟩
            else .inr st2
          else .inr st
        match afterIncrement with
        | .inl out => out
        | .inr st =>
          let currentFreeSizeMb := vm.freeStorageSizeMb
          if currentFreeSizeMb < 0 then
            ⟨.Failed, st, true, some .failedToDetermineFreeStorageSize⟩
          else if st.freeSizeMb ≤ currentFreeSizeMb then
            -- nothing to do
            ⟨.Prepared, { st with freeSizeMb := 0 }, false, none⟩
          else ⟨.Prepared, st, true, none⟩
  else
    ⟨.Ignored, st, true, some .unknownProperty⟩

/-- The remote setters invoked by VirtualMachinePropertiesAccessor::set. -/
inductive VmSetter where
  | setMemorySizeMb (v : Int)
  | setSwapSizeMb (v : Int)
  | setCpuCount (v : Int)
  | setStorageSizeMb (v : Int)
  | reserveStorageSizeMb (size increment : Int)
deriving DecidableEq

/-- VirtualMachinePropertiesAccessor::set is a sequence of guarded setter
invocations threading (ok, machine, trace); each block below is one guarded
step of the C++ body, applied in source order by vmSet.  The remote setters
are transport collaborator contracts; they are modelled as
always-succeeding updates recorded in the returned event list. -/
def vmSetMemoryStep (st : VmAccessorState) (acc : Bool × VirtualMachine × List VmSetter) :
    Bool × VirtualMachine × List VmSetter :=
  if st.memorySizeMb ≠ acc.2.1.memorySizeMb then
    (acc.1, { acc.2.1 with memorySizeMb := st.memorySizeMb },
      acc.2.2 ++ [.setMemorySizeMb st.memorySizeMb])
  else acc

def vmSetSwapStep (st : VmAccessorState) (acc : Bool × VirtualMachine × List VmSetter) :
    Bool × VirtualMachine × List VmSetter :=
  if st.swapSizeMb ≠ acc.2.1.swapSizeMb ∧ acc.2.1.features.swapMemory then
    (acc.1, { acc.2.1 with swapSizeMb := st.swapSizeMb },
      acc.2.2 ++ [.setSwapSizeMb st.swapSizeMb])
  else acc

def vmSetCpuStep (st : VmAccessorState) (acc : Bool × VirtualMachine × List VmSetter) :
    Bool × VirtualMachine × List VmSetter :=
  if st.cpuCount ≠ acc.2.1.cpuCount then
    (acc.1, { acc.2.1 with cpuCount := st.cpuCount },
      acc.2.2 ++ [.setCpuCount st.cpuCount])
  else acc

def vmSetStorageStep (st : VmAccessorState) (acc : Bool × VirtualMachine × List VmSetter) :
    Bool × VirtualMachine × List VmSetter :=
  if st.storageSizeMb ≠ acc.2.1.storageSizeMb then
    (acc.1, { acc.2.1 with storageSizeMb := st.storageSizeMb },
      acc.2.2 ++ [.setStorageSizeMb st.storageSizeMb])
  else acc

def vmSetReserveStep (st : VmAccessorState) (acc : Bool × VirtualMachine × List VmSetter) :
    Bool × VirtualMachine × List VmSetter :=
  if st.freeSizeMb > 0 then
    -- the reserve branch returns stepOk alone, discarding the accumulated ok
    (true, acc.2.1, acc.2.2 ++ [.reserveStorageSizeMb st.freeSizeMb st.incrementMb])
  else acc

def vmSet (vm : VirtualMachine) (st : VmAccessorState) :
    Bool × VirtualMachine × List VmSetter :=
  vmSetReserveStep st (vmSetStorageStep st (vmSetCpuStep st
    (vmSetSwapStep st (vmSetMemoryStep st (true, vm, [])))))

/-! ## Emulator and build engine resources -/

/-- The setter calls observable during the apply phase, across all accessors. -/
inductive SetterEvent where
  | vm (s : VmSetter)
  | setCustomBuildHostName (v : String)
  | setBuildEnvironmentFilter (v : List String)
  | engineSetSshPort (v : Int)
  | engineSetSshParametersTimeout (v : Int)
  | engineSetDBusPort (v : Int)
  | emulatorSetDisplayProperties (model : String) (o : Orientation) (downscale : Bool)
  | emulatorSetSshPort (v : Int)
  | emulatorSetSshParametersTimeout (v : Int)
deriving DecidableEq

/-- An emulator resource: its virtual machine plus its own configuration. -/
structure Emulator where
  vm : VirtualMachine
  deviceModelName : String
  orientation : Orientation
  viewScaled : Bool
  sshPort : Int
  sshTimeout : Int
deriving DecidableEq

/-- Sdk:: global state touched by BuildEnginePropertiesAccessor. -/
structure SdkGlobals where
  effectiveBuildHostName : String
  customBuildHostName : String
  buildEnvironmentFilter : List String
deriving DecidableEq

/-- A build engine resource; the Sdk globals it mutates are folded in. -/
structure BuildEngineRes where
  vm : VirtualMachine
  sshPort : Int
  sshTimeout : Int
  dBusPort : Int
  sdk : SdkGlobals
deriving DecidableEq

/-- External collaborators consulted during Prepare: host capacities, the
QUrl host-name well-formedness check, and Sdk::deviceModel lookup. -/
structure ExternalEnv where
  host : HostEnv
  validHostName : String → Bool
  deviceModels : List String

/-! ## EmulatorPropertiesAccessor -/

structure EmulatorAccessorState where
  vmState : VmAccessorState
  deviceModel : String
  orientation : Orientation
  downscale : Bool
  sshPort : Int
  sshTimeout : Int
deriving DecidableEq

def EmulatorAccessorState.init (e : Emulator) : EmulatorAccessorState :=
  ⟨VmAccessorState.init e.vm, e.deviceModelName, e.orientation, e.viewScaled,
    e.sshPort, e.sshTimeout⟩

/-- EmulatorPropertiesAccessor::prepareSetOther. -/
def emulatorPrepareSetOther (env : ExternalEnv) (st : EmulatorAccessorState)
    (name value : String) : PrepareOutcome EmulatorAccessorState :=
  -- *needsVmOff = true;
  if name = EMULATOR_DEVICE_MODEL then
    if value = "" then ⟨.Failed, st, true, some .valueEmpty⟩
    else if ¬ env.deviceModels.contains value then
      ⟨.Failed, st, true, some (.noSuchDeviceModel value)⟩
    else ⟨.Prepared, { st with deviceModel := value }, true, none⟩
  else if name = EMULATOR_ORIENTATION then
    match parseWithDictionary orientationDictionary value with
    | (some o, _) => ⟨.Prepared, { st with orientation := o }, true, none⟩
    | (none, err) => ⟨.Failed, st, true, err⟩
  else if name = EMULATOR_DOWNSCALE then
    match parseWithDictionary booleanDictionary value with
    | (some b, _) => ⟨.Prepared, { st with downscale := b }, true, none⟩
    | (none, err) => ⟨.Failed, st, true, err⟩
  else if name = EMULATOR_SSH_PORT then
    let r := parsePortNumber value
    if ¬ r.ok then ⟨.Failed, st, true, r.error⟩
    else ⟨.Prepared, { st with sshPort := r.out }, true, none⟩
  else if name = EMULATOR_SSH_TIMEOUT then
    let r := parsePositiveInt value
    let st := { st with sshTimeout := r.out }
    if ¬ r.ok then ⟨.Failed, st, true, r.error⟩
    else ⟨.Prepared, st, true, none⟩
  else
    ⟨.Ignored, st, true, some .unknownProperty⟩

/-- Which property group a delegating accessor consulted, in order. -/
inductive AccessorGroup | generic | specific
deriving DecidableEq

/-- EmulatorPropertiesAccessor::prepareSet, instrumented with the list of
property groups consulted, in consultation order (the C++ body delegates to
the generic virtual-machine accessor and falls through to prepareSetOther
only when that returns Ignored). -/
def emulatorPrepareSetWithTrace (env : ExternalEnv) (e : Emulator)
    (st : EmulatorAccessorState) (name value : String) :
    PrepareOutcome EmulatorAccessorState × List AccessorGroup :=
  let g := vmPrepareSet env.host e.vm st.vmState name value
  let st := { st with vmState := g.state }
  if g.result ≠ .Ignored then
    (⟨g.result, st, g.needsVmOff, g.error⟩, [.generic])
  else
    let s := emulatorPrepareSetOther env st name value
    if s.result ≠ .Ignored then (s, [.generic, .specific])
    else (⟨.Ignored, s.state, s.needsVmOff, s.error⟩, [.generic, .specific])

def emulatorPrepareSet (env : ExternalEnv) (e : Emulator)
    (st : EmulatorAccessorState) (name value : String) :
    PrepareOutcome EmulatorAccessorState :=
  (emulatorPrepareSetWithTrace env e st name value).1

/-- EmulatorPropertiesAccessor::setOthers, one guarded step per block of the
C++ body, applied in source order by emulatorSetOthers. -/
def emulatorDisplayStep (st : EmulatorAccessorState) (acc : Bool × Emulator × List SetterEvent) :
    Bool × Emulator × List SetterEvent :=
  if st.deviceModel ≠ acc.2.1.deviceModelName ∨ st.orientation ≠ acc.2.1.orientation
      ∨ st.downscale ≠ acc.2.1.viewScaled then
    (acc.1,
      { acc.2.1 with
          deviceModelName := st.deviceModel
          orientation := st.orientation
          viewScaled := st.downscale },
      acc.2.2 ++ [.emulatorSetDisplayProperties st.deviceModel st.orientation st.downscale])
  else acc

def emulatorSshPortStep (st : EmulatorAccessorState) (acc : Bool × Emulator × List SetterEvent) :
    Bool × Emulator × List SetterEvent :=
  if st.sshPort ≠ acc.2.1.sshPort then
    (acc.1, { acc.2.1 with sshPort := st.sshPort },
      acc.2.2 ++ [.emulatorSetSshPort st.sshPort])
  else acc

def emulatorSshTimeoutStep (st : EmulatorAccessorState) (acc : Bool × Emulator × List SetterEvent) :
    Bool × Emulator × List SetterEvent :=
  if st.sshTimeout ≠ acc.2.1.sshTimeout then
    (acc.1, { acc.2.1 with sshTimeout := st.sshTimeout },
      acc.2.2 ++ [.emulatorSetSshParametersTimeout st.sshTimeout])
  else acc

def emulatorSetOthers (e : Emulator) (st : EmulatorAccessorState) :
    Bool × Emulator × List SetterEvent :=
  emulatorSshTimeoutStep st (emulatorSshPortStep st (emulatorDisplayStep st (true, e, [])))

/-- EmulatorPropertiesAccessor::set: m_vmAccessor->set() && setOthers(). -/
def emulatorSet (e : Emulator) (st : EmulatorAccessorState) :
    Bool × Emulator × List SetterEvent :=
  let (vmOk, vm, vmEvents) := vmSet e.vm st.vmState
  let e := { e with vm := vm }
  if ¬ vmOk then (false, e, vmEvents.map .vm)
  else
    let (ok, e, events) := emulatorSetOthers e st
    (ok, e, vmEvents.map .vm ++ events)

/-! ## BuildEnginePropertiesAccessor -/

structure BuildEngineAccessorState where
  vmState : VmAccessorState
  hostName : String
  hostNameChanged : Bool
  buildEnvironmentFilter : List String
  sshPort : Int
  sshTimeout : Int
  dBusPort : Int
deriving DecidableEq

def BuildEngineAccessorState.init (b : BuildEngineRes) : BuildEngineAccessorState :=
  ⟨VmAccessorState.init b.vm, b.sdk.effectiveBuildHostName, false,
    b.sdk.buildEnvironmentFilter, b.sshPort, b.sshTimeout, b.dBusPort⟩

/-- value.split(QRegularExpression of whitespace runs, Qt::SkipEmptyParts). -/
def splitOnWhitespace (s : String) : List String :=
  ((splitChars isQtSpace s.toList).map String.mk).filter (· ≠ "")

/-- BuildEnginePropertiesAccessor::prepareSetOther. -/
def buildEnginePrepareSetOther (env : ExternalEnv) (st : BuildEngineAccessorState)
    (name value : String) : PrepareOutcome BuildEngineAccessorState :=
  -- *needsVmOff = false;
  if name = ENGINE_HOST_NAME then
    if value ≠ "" ∧ ¬ env.validHostName value then
      ⟨.Failed, st, false, some (.notAWellFormedHostName value)⟩
    else
      ⟨.Prepared, { st with hostName := value, hostNameChanged := true }, false, none⟩
  else if name = ENGINE_BUILD_ENVIRONMENT_FILTER then
    ⟨.Prepared, { st with buildEnvironmentFilter := splitOnWhitespace value }, false, none⟩
  else if name = ENGINE_DBUS_PORT then
    let r := parsePortNumber value
    if ¬ r.ok then ⟨.Failed, st, false, r.error⟩
    else ⟨.Prepared, { st with dBusPort := r.out }, true, none⟩
  else if name = ENGINE_SSH_PORT then
    let r := parsePortNumber value
    if ¬ r.ok then ⟨.Failed, st, false, r.error⟩
    else ⟨.Prepared, { st with sshPort := r.out }, true, none⟩
  else if name = ENGINE_SSH_TIMEOUT then
    let r := parsePositiveInt value
    let st := { st with sshTimeout := r.out }
    if ¬ r.ok then ⟨.Failed, st, false, r.error⟩
    else ⟨.Prepared, st, false, none⟩
  else
    ⟨.Ignored, st, false, some .unknownProperty⟩

/-- BuildEnginePropertiesAccessor::prepareSet, instrumented like the emulator
variant: the generic virtual-machine accessor is consulted first. -/
def buildEnginePrepareSetWithTrace (env : ExternalEnv) (b : BuildEngineRes)
    (st : BuildEngineAccessorState) (name value : String) :
    PrepareOutcome BuildEngineAccessorState × List AccessorGroup :=
  let g := vmPrepareSet env.host b.vm st.vmState name value
  let st := { st with vmState := g.state }
  if g.result ≠ .Ignored then
    (⟨g.result, st, g.needsVmOff, g.error⟩, [.generic])
  else
    let s := buildEnginePrepareSetOther env st name value
    if s.result ≠ .Ignored then (s, [.generic, .specific])
    else (⟨.Ignored, s.state, s.needsVmOff, s.error⟩, [.generic, .specific])

def buildEnginePrepareSet (env : ExternalEnv) (b : BuildEngineRes)
    (st : BuildEngineAccessorState) (name value : String) :
    PrepareOutcome BuildEngineAccessorState :=
  (buildEnginePrepareSetWithTrace env b st name value).1

/-- BuildEnginePropertiesAccessor::setOthers.  Note that
Sdk::setBuildEnvironmentFilter is invoked unconditionally and
Sdk::setCustomBuildHostName whenever a host-name assignment was prepared. -/
def engineHostNameStep (st : BuildEngineAccessorState)
    (acc : Bool × BuildEngineRes × List SetterEvent) :
    Bool × BuildEngineRes × List SetterEvent :=
  if st.hostNameChanged then
    (acc.1, { acc.2.1 with sdk := { acc.2.1.sdk with customBuildHostName := st.hostName } },
      acc.2.2 ++ [.setCustomBuildHostName st.hostName])
  else acc

/-- Sdk::setBuildEnvironmentFilter is invoked with no guard at all. -/
def engineFilterStep (st : BuildEngineAccessorState)
    (acc : Bool × BuildEngineRes × List SetterEvent) :
    Bool × BuildEngineRes × List SetterEvent :=
  (acc.1, { acc.2.1 with
      sdk := { acc.2.1.sdk with buildEnvironmentFilter := st.buildEnvironmentFilter } },
    acc.2.2 ++ [.setBuildEnvironmentFilter st.buildEnvironmentFilter])

def engineSshPortStep (st : BuildEngineAccessorState)
    (acc : Bool × BuildEngineRes × List SetterEvent) :
    Bool × BuildEngineRes × List SetterEvent :=
  if st.sshPort ≠ acc.2.1.sshPort then
    (acc.1, { acc.2.1 with sshPort := st.sshPort },
      acc.2.2 ++ [.engineSetSshPort st.sshPort])
  else acc

def engineSshTimeoutStep (st : BuildEngineAccessorState)
    (acc : Bool × BuildEngineRes × List SetterEvent) :
    Bool × BuildEngineRes × List SetterEvent :=
  if st.sshTimeout ≠ acc.2.1.sshTimeout then
    (acc.1, { acc.2.1 with sshTimeout := st.sshTimeout },
      acc.2.2 ++ [.engineSetSshParametersTimeout st.sshTimeout])
  else acc

def engineDBusPortStep (st : BuildEngineAccessorState)
    (acc : Bool × BuildEngineRes × List SetterEvent) :
    Bool × BuildEngineRes × List SetterEvent :=
  if st.dBusPort ≠ acc.2.1.dBusPort then
    (acc.1, { acc.2.1 with dBusPort := st.dBusPort },
      acc.2.2 ++ [.engineSetDBusPort st.dBusPort])
  else acc

def buildEngineSetOthers (b : BuildEngineRes) (st : BuildEngineAccessorState) :
    Bool × BuildEngineRes × List SetterEvent :=
  engineDBusPortStep st (engineSshTimeoutStep st (engineSshPortStep st
    (engineFilterStep st (engineHostNameStep st (true, b, [])))))

/-- BuildEnginePropertiesAccessor::set: m_vmAccessor->set() && setOthers(). -/
def buildEngineSet (b : BuildEngineRes) (st : BuildEngineAccessorState) :
    Bool × BuildEngineRes × List SetterEvent :=
  let (vmOk, vm, vmEvents) := vmSet b.vm st.vmState
  let b := { b with vm := vm }
  if ¬ vmOk then (false, b, vmEvents.map .vm)
  else
    let (ok, b, events) := buildEngineSetOthers b st
    (ok, b, vmEvents.map .vm ++ events)

/-! ## The abstract accessor interface and SetPropertiesTask -/

/-- The virtual PropertiesAccessor interface over a resource type ρ and a
staged-state type σ.  canSet defaults to returning true, as in the base
class. -/
structure Accessor (ρ σ : Type) where
  prepareSet : ρ → σ → String → String → PrepareOutcome σ
  canSet : σ → Bool × Option ErrorMessage := fun _ => (true, none)
  set : ρ → σ → Bool × ρ × List SetterEvent

def virtualMachineAccessor (host : HostEnv) : Accessor VirtualMachine VmAccessorState where
  prepareSet := fun vm st name value => vmPrepareSet host vm st name value
  set := fun vm st =>
    let (ok, vm, events) := vmSet vm st
    (ok, vm, events.map .vm)

def emulatorAccessor (env : ExternalEnv) : Accessor Emulator EmulatorAccessorState where
  prepareSet := fun e st name value => emulatorPrepareSet env e st name value
  set := emulatorSet

def buildEngineAccessor (env : ExternalEnv) : Accessor BuildEngineRes BuildEngineAccessorState where
  prepareSet := fun b st name value => buildEnginePrepareSet env b st name value
  set := buildEngineSet

/-- The mutable state of a SetPropertiesTask between prepareSet calls. -/
structure TaskState (σ : Type) where
  accessorState : σ
  needsVmOff : Bool
deriving DecidableEq

/-- SetPropertiesTask::prepareSet: false (with the error) unless the accessor
returns Prepared; on success, m_needsVmOff |= needsVmOff. -/
def taskPrepareSet (acc : Accessor ρ σ) (res : ρ) (ts : TaskState σ)
    (name value : String) : Bool × TaskState σ × Option ErrorMessage :=
  let out := acc.prepareSet res ts.accessorState name value
  if out.result ≠ .Prepared then
    (false, { ts with accessorState := out.state }, out.error)
  else
    (true, ⟨out.state, ts.needsVmOff || out.needsVmOff⟩, none)

/-- Environment consulted by SetPropertiesTask::set: the auto-stop override
variable, the observable running state of the virtual machine, and the
outcome of the VirtualMachine::lockDown(true) transport operation. -/
structure TaskEnv where
  autoStopVms : Bool
  isRunningReliably : Bool
  lockDownOk : Bool
deriving DecidableEq

structure TaskSetResult (ρ : Type) where
  ok : Bool
  resource : ρ
  error : Option ErrorMessage
  events : List SetterEvent
  lockedDown : Bool
deriving DecidableEq

/-- SetPropertiesTask::set. -/
def taskSet (acc : Accessor ρ σ) (env : TaskEnv) (stopVmMessage : ErrorMessage)
    (res : ρ) (ts : TaskState σ) : TaskSetResult ρ :=
  match acc.canSet ts.accessorState with
  | (false, err) => ⟨false, res, err, [], false⟩
  | (true, _) =>
    let stopError : Option ErrorMessage :=
      if ts.needsVmOff ∧ ¬ env.autoStopVms ∧ env.isRunningReliably then
        some stopVmMessage
      else none
    let lockDownOk : Bool :=
      if ts.needsVmOff ∧ ¬ (¬ env.autoStopVms ∧ env.isRunningReliably) then
        env.lockDownOk
      else false
    if ¬ ts.needsVmOff ∨ lockDownOk = true then
      let (ok, res, events) := acc.set res ts.accessorState
      ⟨ok, res, if ok then stopError else some .failedToSetSomeProperties,
        events, lockDownOk⟩
    else
      ⟨false, res, stopError, [], lockDownOk⟩

/-! ## BuiltinWorker::setProperties -/

/-- CamelCase to hyphenated form: insert a hyphen before each ASCII uppercase
letter, then lowercase the whole string. -/
def normalizeProperty (s : String) : String :=
  let inserted := s.toList.flatMap fun c =>
    if 'A' ≤ c ∧ c ≤ 'Z' then ['-', c] else [c]
  String.mk (inserted.map Char.toLower)

inductive ExitStatus | NormalExit | BadUsage
deriving DecidableEq

/-- The outcome of the prepare loop in BuiltinWorker::setProperties. -/
inductive PrepareLoopResult (σ : Type) where
  | badUsage (assignment : String)
  | failed (property : String) (error : Option ErrorMessage) (ts : TaskState σ)
  | done (ts : TaskState σ)
deriving DecidableEq

/-- The per-assignment loop of BuiltinWorker::setProperties: split each
assignment at '=', normalize the deprecated camel-case form, and stage it
through SetPropertiesTask::prepareSet, aborting on the first failure. -/
def prepareLoop (acc : Accessor ρ σ) (res : ρ) :
    List String → TaskState σ → PrepareLoopResult σ
  | [], ts => .done ts
  | assignment :: rest, ts =>
    let splitAt := qIndexOf assignment '='
    if splitAt ≤ 0 then .badUsage assignment
    else
      let property := qLeft assignment splitAt
      let value := qMid assignment (splitAt + 1)
      let normalized := normalizeProperty property
      let r := taskPrepareSet acc res ts normalized value
      if r.1 then prepareLoop acc res rest r.2.1
      else .failed property r.2.2 r.2.1

structure SetPropertiesResult (ρ : Type) where
  status : ExitStatus
  exitCode : Option Nat
  resource : ρ
  events : List SetterEvent
  reportedError : Option ErrorMessage
deriving DecidableEq

/-- BuiltinWorker::setProperties: stage every assignment, then apply. -/
def setProperties (acc : Accessor ρ σ) (env : TaskEnv) (stopVmMessage : ErrorMessage)
    (res : ρ) (st0 : σ) (assignments : List String) : SetPropertiesResult ρ :=
  match prepareLoop acc res assignments ⟨st0, false⟩ with
  | .badUsage assignment =>
    ⟨.BadUsage, none, res, [], some (.assignmentExpected assignment)⟩
  | .failed _ err _ =>
    ⟨.NormalExit, some 1, res, [], err⟩
  | .done ts =>
    let r := taskSet acc env stopVmMessage res ts
    if r.ok then ⟨.NormalExit, some 0, r.resource, r.events, none⟩
    else ⟨.NormalExit, some 1, r.resource, r.events, r.error⟩

/-! ## BuildEngineManager::fromMap — collection-level reconciliation

Only the reconciliation scan over the cached engine list (the loop over
m_buildEngines) is embedded; entity identity is the VM URI together with the
creation timestamp recorded in the new authoritative data. -/

/-- A cached build engine as relevant to the reconciliation scan. -/
structure BuildEngineEntry where
  vmUri : String
  creationTime : Int
  autodetected : Bool
deriving DecidableEq

/-- One entry of the new authoritative data map (keyed by VM URI). -/
structure BuildEngineNewData where
  vmUri : String
  creationTime : Int
deriving DecidableEq

/-- newEnginesData.contains(vmUri) && value(vmUri).creationTime == creationTime. -/
def inNewData (data : List BuildEngineNewData) (e : BuildEngineEntry) : Bool :=
  match data.find? (fun d => d.vmUri = e.vmUri) with
  | some d => d.creationTime = e.creationTime
  | none => false

inductive EngineReconcileEvent where
  | aboutToRemoveBuildEngine (i : Nat)
deriving DecidableEq

structure EngineScanResult where
  survivors : List BuildEngineEntry
  events : List EngineReconcileEvent
  remainingData : List BuildEngineNewData
  existing : List BuildEngineEntry
deriving DecidableEq

/-- The scan loop of BuildEngineManager::fromMap.  The index argument is the
position of the current engine in the partially-erased list, which is what
the emitted aboutToRemoveBuildEngine notification carries. -/
def engineReconcileScan (fromSystemSettings : Bool) :
    List BuildEngineEntry → List BuildEngineNewData → Nat → EngineScanResult
  | [], data, _ => ⟨[], [], data, []⟩
  | e :: rest, data, idx =>
    if ¬ inNewData data e ∧ (¬ fromSystemSettings ∨ e.autodetected) then
      -- dropping build engine
      let r := engineReconcileScan fromSystemSettings rest data idx
      ⟨r.survivors, .aboutToRemoveBuildEngine idx :: r.events, r.remainingData, r.existing⟩
    else if e.autodetected ∧ fromSystemSettings then
      -- preserving user configuration; newEnginesData.remove(vmUri)
      let r := engineReconcileScan fromSystemSettings rest
        (data.filter (fun d => d.vmUri ≠ e.vmUri)) (idx + 1)
      ⟨e :: r.survivors, r.events, r.remainingData, r.existing⟩
    else
      let r := engineReconcileScan fromSystemSettings rest data (idx + 1)
      ⟨e :: r.survivors, r.events, r.remainingData, e :: r.existing⟩

def buildEngineReconcile (fromSystemSettings : Bool) (engines : List BuildEngineEntry)
    (data : List BuildEngineNewData) : EngineScanResult :=
  engineReconcileScan fromSystemSettings engines data 0

/-! ## BuildEnginePrivate::updateBuildTargets — build-target reconciliation -/

structure RpmValidationSuiteData where
  id : String
  name : String
  website : String
  essential : Bool
deriving DecidableEq

/-- The raw probe data of one build target as read from targets.xml. -/
structure BuildTargetDump where
  name : String
  origin : String
  gccDumpMachine : String
  gccDumpMacros : String
  gccDumpIncludes : String
  gccDumpInstallDir : String
  qmakeQuery : String
  cmakeCapabilities : String
  cmakeVersion : String
  rpmValidationSuites : String
deriving DecidableEq

/-- The derived configuration of a build target (BuildTargetData), with the
Snapshot / DefaultSnapshot / PooledSnapshot flags as separate booleans. -/
structure BuildTargetData where
  name : String
  origin : String
  snapshot : Bool
  defaultSnapshot : Bool
  pooledSnapshot : Bool
  machine : String
  sysRoot : String
  toolsPath : String
  gdb : String
  rpmValidationSuites : List RpmValidationSuiteData
deriving DecidableEq

/-- QStringList::join(QChar(' ')). -/
def joinWithSpace : List String → String
  | [] => ""
  | [x] => x
  | x :: xs => x ++ " " ++ joinWithSpace xs

def asciiLower (s : String) : String :=
  String.mk (s.toList.map Char.toLower)

/-- BuildEnginePrivate::rpmValidationSuitesFromString: a line-oriented table;
a malformed line (fewer than three fields) aborts parsing of the remainder. -/
def rpmValidationSuitesFromLines : List String → List RpmValidationSuiteData
  | [] => []
  | line :: rest =>
    match ((splitChars (· = ' ') line.toList).map String.mk).filter (· ≠ "") with
    | id :: essential :: website :: nameParts =>
      { id := id
        essential := asciiLower essential = "essential"
        website := if website = "-" then "" else website
        name := joinWithSpace nameParts } :: rpmValidationSuitesFromLines rest
    | _ => []

def rpmValidationSuitesFromString (s : String) : List RpmValidationSuiteData :=
  rpmValidationSuitesFromLines ((splitChars (· = '\n') s.toList).map String.mk)

/-- Static configuration of BuildEnginePrivate consulted while deriving
target data and deciding whether on-disk wrappers are (re)initialized. -/
structure EngineConfig where
  sharedTargetsPath : String
  vmName : String
  toolsPathCommonRoot : String
  useSystemSettingsOnly : Bool
deriving DecidableEq

/-- Utils::FilePath::pathAppended. -/
def pathAppended (p s : String) : String := p ++ "/" ++ s

/-- virtualMachine->name().replace(QLatin1Char(':'), QLatin1Char('_')). -/
def replaceColonByUnderscore (s : String) : String :=
  String.mk (s.toList.map fun c => if c = ':' then '_' else c)

/-- BuildTargetData::snapshotSuffix: name.mid(origin.length() + 1). -/
def snapshotSuffix (name origin : String) : String :=
  String.mk (name.toList.drop (origin.toList.length + 1))

/-- QString::contains(substring). -/
def qContains (s sub : String) : Bool :=
  (List.range (s.toList.length + 1)).any fun i =>
    (s.toList.drop i).take sub.toList.length = sub.toList

/-- BuildEnginePrivate::createTargetData.  DEFAULT_DEBUGGER_FILENAME is a
constant from a header outside this translation unit; its value is opaque
here and modelled as the literal below. -/
def createTargetData (cfg : EngineConfig) (d : BuildTargetDump) : BuildTargetData :=
  let snapshot := d.origin ≠ ""
  let suffix := snapshotSuffix d.name d.origin
  { name := d.name
    origin := d.origin
    snapshot := snapshot
    defaultSnapshot := snapshot ∧ suffix = "default"
    pooledSnapshot := snapshot ∧ qContains suffix ".pool."
    machine := d.gccDumpMachine
    sysRoot := pathAppended cfg.sharedTargetsPath d.name
    toolsPath := pathAppended
      (pathAppended cfg.toolsPathCommonRoot (replaceColonByUnderscore cfg.vmName)) d.name
    gdb := "gdb"
    rpmValidationSuites := rpmValidationSuitesFromString d.rpmValidationSuites }

/-- target.name.startsWith(target.origin + '.')
    && target.name.length() > target.origin.length() + 1. -/
def snapshotNameStartsWithOriginName (t : BuildTargetDump) : Bool :=
  t.name.toList.take (t.origin.toList.length + 1) = t.origin.toList ++ ['.']
    ∧ t.name.toList.length > t.origin.toList.length + 1

/-- The sanity-check filter at the head of updateBuildTargets: drop any
candidate that has snapshots (its name occurs among the candidates' origins)
and any badly named snapshot. -/
def sanitizeTargets (newTargets : List BuildTargetDump) : List BuildTargetDump :=
  let origins := newTargets.map (·.origin)
  newTargets.filter fun t =>
    if origins.contains t.name then false
    else if t.origin ≠ "" then snapshotNameStartsWithOriginName t
    else true

inductive TargetEvent where
  | updated (i : Nat)
  | aboutToRemove (i : Nat)
  | added (i : Nat)
deriving DecidableEq

/-- QList::indexOf followed by removeAt of the found index: the first element
satisfying the test together with the list without it. -/
def findRemove (p : α → Bool) : List α → Option (α × List α)
  | [] => none
  | x :: xs =>
    if p x then some (x, xs)
    else match findRemove p xs with
      | some (y, ys) => some (y, x :: ys)
      | none => none

structure TargetScanResult where
  kept : List (BuildTargetDump × BuildTargetData)
  updatedEvents : List TargetEvent
  toRemove : List Nat
  remaining : List (BuildTargetDump × BuildTargetData)
deriving DecidableEq

/-- The main loop of updateBuildTargets over the cached collection, with the
working candidate list (newTargets zipped with newTargetsData) threaded
through.  An exact raw-data match keeps the cached entry untouched; a
derived-data match updates the cached dump in place (the cached derived data
equals the candidate's); otherwise the index is marked for removal. -/
def targetScan : List (BuildTargetDump × BuildTargetData) → Nat →
    List (BuildTargetDump × BuildTargetData) → TargetScanResult
  | [], _, remaining => ⟨[], [], [], remaining⟩
  | (dump, data) :: rest, i, remaining =>
    match findRemove (fun nt => nt.1 == dump) remaining with
    | some (_, remaining) =>
      let r := targetScan rest (i + 1) remaining
      ⟨(dump, data) :: r.kept, r.updatedEvents, r.toRemove, r.remaining⟩
    | none =>
      match findRemove (fun nt => nt.2 == data) remaining with
      | some (nt, remaining) =>
        let r := targetScan rest (i + 1) remaining
        ⟨(nt.1, data) :: r.kept, .updated i :: r.updatedEvents, r.toRemove, r.remaining⟩
      | none =>
        let r := targetScan rest (i + 1) remaining
        ⟨r.kept, r.updatedEvents, i :: r.toRemove, r.remaining⟩

structure UpdateTargetsResult where
  targets : List (BuildTargetDump × BuildTargetData)
  events : List TargetEvent
deriving DecidableEq

/-- BuildEnginePrivate::updateBuildTargets(QList of BuildTargetDump): sanitize
the candidates, scan the cached collection, remove unmatched cached entries in
descending index order (notifying with the original index), then append the
remaining candidates with freshly derived data, notifying with the final
index. -/
def updateBuildTargets (cfg : EngineConfig)
    (current : List (BuildTargetDump × BuildTargetData))
    (newTargets0 : List BuildTargetDump) : UpdateTargetsResult :=
  let newTargets := sanitizeTargets newTargets0
  let pairs := newTargets.map fun t => (t, createTargetData cfg t)
  let scan := targetScan current 0 pairs
  let removeEvents := scan.toRemove.reverse.map TargetEvent.aboutToRemove
  let appended := scan.remaining.map fun nt => (nt.1, createTargetData cfg nt.1)
  let addedEvents := (List.range appended.length).map fun k =>
    TargetEvent.added (scan.kept.length + k)
  ⟨scan.kept ++ appended, scan.updatedEvents ++ removeEvents ++ addedEvents⟩

/-! ## The resolution order asserted by the specification

The specification describes Prepare as consulting the resource-specific
property group first and the generic shared (virtual-machine) accessor
second.  These definitions follow the spec's words (not the code) so the
asserted order can be compared with the embedded one. -/

/-- Modelled from the spec: the consultation order the specification asserts
for an emulator — resource-specific accessor first, generic second, the
second consulted only when the first does not recognize the name. -/
def specAssertedEmulatorOrder (env : ExternalEnv)
    (st : EmulatorAccessorState) (name value : String) : List AccessorGroup :=
  let s := emulatorPrepareSetOther env st name value
  if s.result ≠ .Ignored then [.specific]
  else [.specific, .generic]

/-! ## Concrete sample instances used by witness and counterexample theorems -/

def sampleHost : HostEnv := ⟨8192, 8⟩
def allFeatures : VmFeatures := ⟨true, true, true, true⟩
def noFeatures : VmFeatures := ⟨false, false, false, false⟩
def sampleVm : VirtualMachine := ⟨allFeatures, 2048, 512, 2, 500, 100⟩
def limitedVm : VirtualMachine := ⟨noFeatures, 2048, 512, 2, 500, 100⟩
def sampleSdk : SdkGlobals := ⟨"build-host", "", ["a"]⟩
def sampleEngine : BuildEngineRes := ⟨sampleVm, 2222, 30, 3333, sampleSdk⟩
def sampleEmulator : Emulator := ⟨sampleVm, "model1", .vertical, false, 2223, 30⟩
def sampleExternalEnv : ExternalEnv := ⟨sampleHost, fun _ => true, ["model1"]⟩
def sampleTaskEnv : TaskEnv := ⟨false, true, true⟩

def sampleTargetsCfg : EngineConfig := ⟨"/srv/targets", "engine:vm", "/tools", false⟩
def sampleDumpBase : BuildTargetDump :=
  ⟨"base", "", "machine", "", "", "", "", "", "", ""⟩
def sampleDumpSnapshot : BuildTargetDump :=
  ⟨"base.default", "base", "machine", "", "", "", "", "", "", ""⟩
def sampleDumpBad : BuildTargetDump :=
  ⟨"bad", "base", "machine", "", "", "", "", "", "", ""⟩

/-! # Theorems -/

/-- C10: for every virtual machine whose advertised feature set does not
include LimitMemorySize, preparing an assignment to vm.cpu-count fails with
the "Read-only property" error, whatever the value — CPU-count mutability is
gated by the LimitMemorySize capability flag rather than by a CPU-specific
capability. -/
theorem C10_cpu_count_mutability_gated_by_LimitMemorySize
    (host : HostEnv) (vm : VirtualMachine) (st : VmAccessorState) (value : String)
    (h : vm.features.limitMemorySize = false) :
    vmPrepareSet host vm st VM_CPU_COUNT value =
      ⟨.Failed, st, true, some .readOnlyProperty⟩ := by
  simp [vmPrepareSet, VM_CPU_COUNT, VM_MEMORY_SIZE_MB, VM_SWAP_SIZE_MB, h]

/-- Witness for C10: a machine without LimitMemorySize rejects
vm.cpu-count=2 as read-only even though 2 is a valid CPU count below the
host capacity of 8. -/
theorem C10_cpu_count_mutability_gated_by_LimitMemorySize_witness :
    limitedVm.features.limitMemorySize = false ∧
    (2 : Int) ≤ sampleHost.availableCpuCount ∧
    vmPrepareSet sampleHost limitedVm (.init limitedVm) VM_CPU_COUNT "2" =
      ⟨.Failed, .init limitedVm, true, some .readOnlyProperty⟩ :=
  ⟨rfl, by decide,
    C10_cpu_count_mutability_gated_by_LimitMemorySize sampleHost limitedVm
      (.init limitedVm) "2" rfl⟩

/-- C2: when at least one prepared property requires the virtual machine to
be off, the machine is observably running, and the auto-stop override is not
set, SetPropertiesTask::set aborts with the caller's stop-it-yourself
message and the accessor's set step is never reached: no setter event is
emitted and the resource is returned unchanged. -/
theorem C2_precondition_error_when_running_without_override
    {ρ σ : Type} (acc : Accessor ρ σ) (env : TaskEnv) (stopVmMessage : ErrorMessage)
    (res : ρ) (ts : TaskState σ)
    (hOff : ts.needsVmOff = true)
    (hNoOverride : env.autoStopVms = false)
    (hRunning : env.isRunningReliably = true)
    (hCan : (acc.canSet ts.accessorState).1 = true) :
    taskSet acc env stopVmMessage res ts =
      ⟨false, res, some stopVmMessage, [], false⟩ := by
  unfold taskSet
  rcases hc : acc.canSet ts.accessorState with ⟨b, e⟩
  rw [hc] at hCan
  simp only at hCan
  subst hCan
  simp [hOff, hNoOverride, hRunning]

/-- Witness for C2 at the virtual machine accessor with a staged state that
requires the machine to be off, while it is running and no override is set. -/
theorem C2_precondition_error_when_running_without_override_witness :
    (⟨.init sampleVm, true⟩ : TaskState VmAccessorState).needsVmOff = true ∧
    sampleTaskEnv.autoStopVms = false ∧
    sampleTaskEnv.isRunningReliably = true ∧
    taskSet (virtualMachineAccessor sampleHost) sampleTaskEnv (.custom "stop the VM")
        sampleVm ⟨.init sampleVm, true⟩ =
      ⟨false, sampleVm, some (.custom "stop the VM"), [], false⟩ :=
  ⟨rfl, rfl, rfl,
    C2_precondition_error_when_running_without_override
      (virtualMachineAccessor sampleHost) sampleTaskEnv (.custom "stop the VM")
      sampleVm ⟨.init sampleVm, true⟩ rfl rfl rfl rfl⟩

/-- C1: if any assignment of a batch fails the Prepare phase (validation
failure or unrecognized property), BuiltinWorker::setProperties aborts the
whole batch with that assignment's error before the Apply phase: the exit
code reports failure, no setter event is emitted, and the resource
configuration is returned unchanged. -/
theorem C1_prepare_failure_aborts_whole_batch
    {ρ σ : Type} (acc : Accessor ρ σ) (env : TaskEnv) (stopVmMessage : ErrorMessage)
    (res : ρ) (st0 : σ) (assignments : List String)
    (property : String) (err : Option ErrorMessage) (ts : TaskState σ)
    (h : prepareLoop acc res assignments ⟨st0, false⟩ = .failed property err ts) :
    setProperties acc env stopVmMessage res st0 assignments =
      ⟨.NormalExit, some 1, res, [], err⟩ := by
  unfold setProperties
  rw [h]

/-- Witness for C1: a two-assignment batch whose second assignment fails to
parse leaves the virtual machine configuration untouched and applies
nothing, even though the first assignment staged a changed memory size. -/
theorem C1_prepare_failure_aborts_whole_batch_witness :
    prepareLoop (virtualMachineAccessor sampleHost) sampleVm
        ["vm.memory-size=1024", "vm.cpu-count=abc"] ⟨.init sampleVm, false⟩ =
      .failed "vm.cpu-count" (some (.positiveIntExpected "abc"))
        ⟨⟨1024, 512, 0, 500, 0, 0⟩, true⟩ ∧
    setProperties (virtualMachineAccessor sampleHost) sampleTaskEnv (.custom "stop")
        sampleVm (.init sampleVm) ["vm.memory-size=1024", "vm.cpu-count=abc"] =
      ⟨.NormalExit, some 1, sampleVm, [], some (.positiveIntExpected "abc")⟩ :=
  ⟨by decide,
    C1_prepare_failure_aborts_whole_batch (virtualMachineAccessor sampleHost)
      sampleTaskEnv (.custom "stop") sampleVm (.init sampleVm)
      ["vm.memory-size=1024", "vm.cpu-count=abc"] "vm.cpu-count"
      (some (.positiveIntExpected "abc")) ⟨⟨1024, 512, 0, 500, 0, 0⟩, true⟩ (by decide)⟩

/-- When the emulator-specific property group does not recognize a name, it
reports the unrecognized-property error. -/
theorem emulatorPrepareSetOther_ignored_error (env : ExternalEnv)
    (st : EmulatorAccessorState) (name value : String)
    (h : (emulatorPrepareSetOther env st name value).result = .Ignored) :
    (emulatorPrepareSetOther env st name value).error = some .unknownProperty := by
  unfold emulatorPrepareSetOther at h ⊢
  dsimp only at h ⊢
  repeat' split at h
  all_goals first | rfl | simp_all

/-- When the build-engine-specific property group does not recognize a name,
it reports the unrecognized-property error. -/
theorem buildEnginePrepareSetOther_ignored_error (env : ExternalEnv)
    (st : BuildEngineAccessorState) (name value : String)
    (h : (buildEnginePrepareSetOther env st name value).result = .Ignored) :
    (buildEnginePrepareSetOther env st name value).error = some .unknownProperty := by
  unfold buildEnginePrepareSetOther at h ⊢
  dsimp only at h ⊢
  repeat' split at h
  all_goals first | rfl | simp_all

/-- C4 (amended): when preparing a single assignment for an emulator or a
build engine, the generic shared virtual-machine accessor is consulted
first and the resource-specific group second; a non-Ignored generic result
is returned without consulting the specific group, and when neither group
recognizes the name the outcome is Ignored with the "unrecognized property"
error (which SetPropertiesTask::prepareSet turns into a failure). -/
theorem C4_amended_generic_accessor_consulted_first (env : ExternalEnv)
    (e : Emulator) (b : BuildEngineRes) (ste : EmulatorAccessorState)
    (stb : BuildEngineAccessorState) (name value : String) :
    ((emulatorPrepareSetWithTrace env e ste name value).2.head? = some .generic ∧
      ((vmPrepareSet env.host e.vm ste.vmState name value).result ≠ .Ignored →
        (emulatorPrepareSetWithTrace env e ste name value).2 = [.generic] ∧
        (emulatorPrepareSetWithTrace env e ste name value).1.result =
          (vmPrepareSet env.host e.vm ste.vmState name value).result) ∧
      ((vmPrepareSet env.host e.vm ste.vmState name value).result = .Ignored →
        (emulatorPrepareSetWithTrace env e ste name value).2 = [.generic, .specific] ∧
        ((emulatorPrepareSetOther env
            { ste with vmState := (vmPrepareSet env.host e.vm ste.vmState name value).state }
            name value).result = .Ignored →
          (emulatorPrepareSetWithTrace env e ste name value).1.result = .Ignored ∧
          (emulatorPrepareSetWithTrace env e ste name value).1.error =
            some .unknownProperty))) ∧
    ((buildEnginePrepareSetWithTrace env b stb name value).2.head? = some .generic ∧
      ((vmPrepareSet env.host b.vm stb.vmState name value).result ≠ .Ignored →
        (buildEnginePrepareSetWithTrace env b stb name value).2 = [.generic] ∧
        (buildEnginePrepareSetWithTrace env b stb name value).1.result =
          (vmPrepareSet env.host b.vm stb.vmState name value).result) ∧
      ((vmPrepareSet env.host b.vm stb.vmState name value).result = .Ignored →
        (buildEnginePrepareSetWithTrace env b stb name value).2 = [.generic, .specific] ∧
        ((buildEnginePrepareSetOther env
            { stb with vmState := (vmPrepareSet env.host b.vm stb.vmState name value).state }
            name value).result = .Ignored →
          (buildEnginePrepareSetWithTrace env b stb name value).1.result = .Ignored ∧
          (buildEnginePrepareSetWithTrace env b stb name value).1.error =
            some .unknownProperty))) := by
  refine ⟨⟨?_, ?_, ?_⟩, ⟨?_, ?_, ?_⟩⟩
  · unfold emulatorPrepareSetWithTrace
    dsimp only
    split
    · rfl
    · split <;> rfl
  · intro hne
    unfold emulatorPrepareSetWithTrace
    dsimp only
    rw [if_pos hne]
    exact ⟨rfl, rfl⟩
  · intro hg
    unfold emulatorPrepareSetWithTrace
    dsimp only
    rw [if_neg (not_not_intro hg)]
    refine ⟨?_, fun hs => ?_⟩
    · split <;> rfl
    · rw [if_neg (not_not_intro hs)]
      exact ⟨rfl, emulatorPrepareSetOther_ignored_error env _ name value hs⟩
  · unfold buildEnginePrepareSetWithTrace
    dsimp only
    split
    · rfl
    · split <;> rfl
  · intro hne
    unfold buildEnginePrepareSetWithTrace
    dsimp only
    rw [if_pos hne]
    exact ⟨rfl, rfl⟩
  · intro hg
    unfold buildEnginePrepareSetWithTrace
    dsimp only
    rw [if_neg (not_not_intro hg)]
    refine ⟨?_, fun hs => ?_⟩
    · split <;> rfl
    · rw [if_neg (not_not_intro hs)]
      exact ⟨rfl, buildEnginePrepareSetOther_ignored_error env _ name value hs⟩

/-- C4 counterexample: for the emulator-specific property device-model, the
code consults the generic virtual-machine accessor first (the consultation
trace is [generic, specific]), while the order asserted by the claim would
consult the resource-specific group alone ([specific]). -/
theorem C4_counterexample_consultation_order :
    (emulatorPrepareSetWithTrace sampleExternalEnv sampleEmulator
        (.init sampleEmulator) EMULATOR_DEVICE_MODEL "model1").2 =
      [.generic, .specific] ∧
    specAssertedEmulatorOrder sampleExternalEnv (.init sampleEmulator)
        EMULATOR_DEVICE_MODEL "model1" = [.specific] ∧
    ([AccessorGroup.generic, .specific] ≠ ([.specific] : List AccessorGroup)) :=
  ⟨by decide, by decide, by decide⟩

/-- Witness for C4 (amended): a generic virtual-machine property stops the
consultation at the generic accessor, and an unrecognized name makes both
groups ignore it and surfaces the unrecognized-property error. -/
theorem C4_amended_generic_accessor_consulted_first_witness :
    ((emulatorPrepareSetWithTrace sampleExternalEnv sampleEmulator
        (.init sampleEmulator) VM_MEMORY_SIZE_MB "1024").2 = [.generic] ∧
      (buildEnginePrepareSetWithTrace sampleExternalEnv sampleEngine
        (.init sampleEngine) "no-such-property" "x").1.error = some .unknownProperty) := by
  have h := C4_amended_generic_accessor_consulted_first sampleExternalEnv
    sampleEmulator sampleEngine (.init sampleEmulator) (.init sampleEngine)
  refine ⟨(h VM_MEMORY_SIZE_MB "1024").1.2.1 (by decide) |>.1, ?_⟩
  exact ((h "no-such-property" "x").2.2.2 (by decide)).2 (by decide) |>.2

/-- C5 (amended): memory size and CPU count are gated by LimitMemorySize and
fail with the distinct "Read-only property" error when the capability is
absent; a swap-size assignment without the SwapMemory capability is instead
treated as an unrecognized property; and a storage-size decrease or increase
without the Shrink/GrowStorageSize capability fails with the "Value cannot
be decreased"/"increased" error — all distinct from the invalid-value
errors, but only the first two use the read-only message. -/
theorem C5_amended_capability_gating_uses_distinct_errors
    (host : HostEnv) (vm : VirtualMachine) (st : VmAccessorState) (value : String) (v : Int) :
    (vm.features.limitMemorySize = false →
      vmPrepareSet host vm st VM_MEMORY_SIZE_MB value =
        ⟨.Failed, st, true, some .readOnlyProperty⟩) ∧
    (vm.features.swapMemory = false →
      vmPrepareSet host vm st VM_SWAP_SIZE_MB value =
        ⟨.Ignored, st, true, some .unknownProperty⟩) ∧
    (vm.features.shrinkStorageSize = false →
      parsePositiveInt value = ⟨true, v, none⟩ → v < vm.storageSizeMb →
      vmPrepareSet host vm st VM_STORAGE_SIZE_MB value =
        ⟨.Failed, { st with storageSizeMb := v }, true, some .valueCannotBeDecreased⟩) ∧
    (vm.features.growStorageSize = false →
      parsePositiveInt value = ⟨true, v, none⟩ → vm.storageSizeMb < v →
      vmPrepareSet host vm st VM_STORAGE_SIZE_MB value =
        ⟨.Failed, { st with storageSizeMb := v }, true, some .valueCannotBeIncreased⟩) := by
  refine ⟨fun h => ?_, fun h => ?_, fun h hp hlt => ?_, fun h hp hgt => ?_⟩
  · simp [vmPrepareSet, VM_MEMORY_SIZE_MB, h]
  · simp [vmPrepareSet, VM_SWAP_SIZE_MB, VM_MEMORY_SIZE_MB, VM_CPU_COUNT,
      VM_STORAGE_SIZE_MB, VM_FREE_STORAGE_SIZE_MB, h]
  · simp [vmPrepareSet, VM_STORAGE_SIZE_MB, VM_MEMORY_SIZE_MB, VM_SWAP_SIZE_MB,
      VM_CPU_COUNT, hp, h, hlt]
  · have hnlt : ¬ v < vm.storageSizeMb := not_lt.mpr (le_of_lt hgt)
    simp [vmPrepareSet, VM_STORAGE_SIZE_MB, VM_MEMORY_SIZE_MB, VM_SWAP_SIZE_MB,
      VM_CPU_COUNT, hp, h, hgt, hnlt]

/-- C5 counterexample: on a machine advertising no capabilities, swap size is
rejected as an unrecognized property and storage shrink/grow with the
cannot-be-decreased/increased errors — none of them the "Read-only property"
error the claim asserts for every capability-gated property. -/
theorem C5_counterexample_swap_and_storage_not_read_only :
    vmPrepareSet sampleHost limitedVm (.init limitedVm) VM_SWAP_SIZE_MB "100" =
      ⟨.Ignored, .init limitedVm, true, some .unknownProperty⟩ ∧
    (vmPrepareSet sampleHost limitedVm (.init limitedVm) VM_STORAGE_SIZE_MB "100").error =
      some .valueCannotBeDecreased ∧
    (vmPrepareSet sampleHost limitedVm (.init limitedVm) VM_STORAGE_SIZE_MB "900").error =
      some .valueCannotBeIncreased ∧
    (some ErrorMessage.unknownProperty ≠ some ErrorMessage.readOnlyProperty) ∧
    (some ErrorMessage.valueCannotBeDecreased ≠ some ErrorMessage.readOnlyProperty) ∧
    (some ErrorMessage.valueCannotBeIncreased ≠ some ErrorMessage.readOnlyProperty) := by
  refine ⟨by decide, by decide, by decide, by decide, by decide, by decide⟩

/-- Witness for C5 (amended) at a machine with no capabilities: memory size
is read-only, storage decrease fails with the decrease error. -/
theorem C5_amended_capability_gating_uses_distinct_errors_witness :
    vmPrepareSet sampleHost limitedVm (.init limitedVm) VM_MEMORY_SIZE_MB "1024" =
      ⟨.Failed, .init limitedVm, true, some .readOnlyProperty⟩ ∧
    vmPrepareSet sampleHost limitedVm (.init limitedVm) VM_STORAGE_SIZE_MB "100" =
      ⟨.Failed, { VmAccessorState.init limitedVm with storageSizeMb := 100 }, true,
        some .valueCannotBeDecreased⟩ :=
  ⟨(C5_amended_capability_gating_uses_distinct_errors sampleHost limitedVm
      (.init limitedVm) "1024" 0).1 rfl,
    (C5_amended_capability_gating_uses_distinct_errors sampleHost limitedVm
      (.init limitedVm) "100" 100).2.2.1 rfl (by decide) (by decide)⟩

/-! Membership and frame lemmas for the guarded setter steps. -/

theorem vmSetMemoryStep_mem (st : VmAccessorState)
    (acc : Bool × VirtualMachine × List VmSetter) (x : VmSetter) :
    x ∈ (vmSetMemoryStep st acc).2.2 ↔
      x ∈ acc.2.2 ∨ (st.memorySizeMb ≠ acc.2.1.memorySizeMb ∧
        x = .setMemorySizeMb st.memorySizeMb) := by
  unfold vmSetMemoryStep; split_ifs <;> simp_all

theorem vmSetSwapStep_mem (st : VmAccessorState)
    (acc : Bool × VirtualMachine × List VmSetter) (x : VmSetter) :
    x ∈ (vmSetSwapStep st acc).2.2 ↔
      x ∈ acc.2.2 ∨ ((st.swapSizeMb ≠ acc.2.1.swapSizeMb ∧ acc.2.1.features.swapMemory) ∧
        x = .setSwapSizeMb st.swapSizeMb) := by
  unfold vmSetSwapStep; split_ifs <;> simp_all

theorem vmSetCpuStep_mem (st : VmAccessorState)
    (acc : Bool × VirtualMachine × List VmSetter) (x : VmSetter) :
    x ∈ (vmSetCpuStep st acc).2.2 ↔
      x ∈ acc.2.2 ∨ (st.cpuCount ≠ acc.2.1.cpuCount ∧ x = .setCpuCount st.cpuCount) := by
  unfold vmSetCpuStep; split_ifs <;> simp_all

theorem vmSetStorageStep_mem (st : VmAccessorState)
    (acc : Bool × VirtualMachine × List VmSetter) (x : VmSetter) :
    x ∈ (vmSetStorageStep st acc).2.2 ↔
      x ∈ acc.2.2 ∨ (st.storageSizeMb ≠ acc.2.1.storageSizeMb ∧
        x = .setStorageSizeMb st.storageSizeMb) := by
  unfold vmSetStorageStep; split_ifs <;> simp_all

theorem vmSetReserveStep_mem (st : VmAccessorState)
    (acc : Bool × VirtualMachine × List VmSetter) (x : VmSetter) :
    x ∈ (vmSetReserveStep st acc).2.2 ↔
      x ∈ acc.2.2 ∨ (st.freeSizeMb > 0 ∧
        x = .reserveStorageSizeMb st.freeSizeMb st.incrementMb) := by
  unfold vmSetReserveStep; split_ifs <;> simp_all

theorem vmSetMemoryStep_frame (st : VmAccessorState)
    (acc : Bool × VirtualMachine × List VmSetter) :
    (vmSetMemoryStep st acc).2.1.swapSizeMb = acc.2.1.swapSizeMb ∧
    (vmSetMemoryStep st acc).2.1.features = acc.2.1.features ∧
    (vmSetMemoryStep st acc).2.1.cpuCount = acc.2.1.cpuCount ∧
    (vmSetMemoryStep st acc).2.1.storageSizeMb = acc.2.1.storageSizeMb := by
  unfold vmSetMemoryStep; split_ifs <;> exact ⟨rfl, rfl, rfl, rfl⟩

theorem vmSetSwapStep_frame (st : VmAccessorState)
    (acc : Bool × VirtualMachine × List VmSetter) :
    (vmSetSwapStep st acc).2.1.cpuCount = acc.2.1.cpuCount ∧
    (vmSetSwapStep st acc).2.1.storageSizeMb = acc.2.1.storageSizeMb := by
  unfold vmSetSwapStep; split_ifs <;> exact ⟨rfl, rfl⟩

theorem vmSetCpuStep_frame (st : VmAccessorState)
    (acc : Bool × VirtualMachine × List VmSetter) :
    (vmSetCpuStep st acc).2.1.storageSizeMb = acc.2.1.storageSizeMb := by
  unfold vmSetCpuStep; split_ifs <;> rfl

theorem engineHostNameStep_mem (st : BuildEngineAccessorState)
    (acc : Bool × BuildEngineRes × List SetterEvent) (x : SetterEvent) :
    x ∈ (engineHostNameStep st acc).2.2 ↔
      x ∈ acc.2.2 ∨ (st.hostNameChanged = true ∧ x = .setCustomBuildHostName st.hostName) := by
  unfold engineHostNameStep; split_ifs <;> simp_all

theorem engineFilterStep_mem (st : BuildEngineAccessorState)
    (acc : Bool × BuildEngineRes × List SetterEvent) (x : SetterEvent) :
    x ∈ (engineFilterStep st acc).2.2 ↔
      x ∈ acc.2.2 ∨ x = .setBuildEnvironmentFilter st.buildEnvironmentFilter := by
  unfold engineFilterStep; simp

theorem engineSshPortStep_mem (st : BuildEngineAccessorState)
    (acc : Bool × BuildEngineRes × List SetterEvent) (x : SetterEvent) :
    x ∈ (engineSshPortStep st acc).2.2 ↔
      x ∈ acc.2.2 ∨ (st.sshPort ≠ acc.2.1.sshPort ∧ x = .engineSetSshPort st.sshPort) := by
  unfold engineSshPortStep; split_ifs <;> simp_all

theorem engineSshTimeoutStep_mem (st : BuildEngineAccessorState)
    (acc : Bool × BuildEngineRes × List SetterEvent) (x : SetterEvent) :
    x ∈ (engineSshTimeoutStep st acc).2.2 ↔
      x ∈ acc.2.2 ∨ (st.sshTimeout ≠ acc.2.1.sshTimeout ∧
        x = .engineSetSshParametersTimeout st.sshTimeout) := by
  unfold engineSshTimeoutStep; split_ifs <;> simp_all

theorem engineDBusPortStep_mem (st : BuildEngineAccessorState)
    (acc : Bool × BuildEngineRes × List SetterEvent) (x : SetterEvent) :
    x ∈ (engineDBusPortStep st acc).2.2 ↔
      x ∈ acc.2.2 ∨ (st.dBusPort ≠ acc.2.1.dBusPort ∧ x = .engineSetDBusPort st.dBusPort) := by
  unfold engineDBusPortStep; split_ifs <;> simp_all

theorem engineHostNameStep_frame (st : BuildEngineAccessorState)
    (acc : Bool × BuildEngineRes × List SetterEvent) :
    (engineHostNameStep st acc).2.1.sshPort = acc.2.1.sshPort ∧
    (engineHostNameStep st acc).2.1.sshTimeout = acc.2.1.sshTimeout ∧
    (engineHostNameStep st acc).2.1.dBusPort = acc.2.1.dBusPort := by
  unfold engineHostNameStep; split_ifs <;> exact ⟨rfl, rfl, rfl⟩

theorem engineFilterStep_frame (st : BuildEngineAccessorState)
    (acc : Bool × BuildEngineRes × List SetterEvent) :
    (engineFilterStep st acc).2.1.sshPort = acc.2.1.sshPort ∧
    (engineFilterStep st acc).2.1.sshTimeout = acc.2.1.sshTimeout ∧
    (engineFilterStep st acc).2.1.dBusPort = acc.2.1.dBusPort :=
  ⟨rfl, rfl, rfl⟩

theorem engineSshPortStep_frame (st : BuildEngineAccessorState)
    (acc : Bool × BuildEngineRes × List SetterEvent) :
    (engineSshPortStep st acc).2.1.sshTimeout = acc.2.1.sshTimeout ∧
    (engineSshPortStep st acc).2.1.dBusPort = acc.2.1.dBusPort := by
  unfold engineSshPortStep; split_ifs <;> exact ⟨rfl, rfl⟩

theorem engineSshTimeoutStep_frame (st : BuildEngineAccessorState)
    (acc : Bool × BuildEngineRes × List SetterEvent) :
    (engineSshTimeoutStep st acc).2.1.dBusPort = acc.2.1.dBusPort := by
  unfold engineSshTimeoutStep; split_ifs <;> rfl

/-- C6: the reserve-size grammar of vm.free-storage-size.  A spec whose size
part lacks the trailing '+' is rejected with the decrease-not-allowed error
whatever the number; the size must parse as a positive integer; a step that
is smaller than the size is rejected with the dedicated message; when the
machine's current free size already meets the requested size the assignment
is staged as a silent no-op that no longer requires the machine to be off —
both without and with the optional ",M" step part — and a zero staged
reserve size never invokes the reserve setter. -/
theorem C6_reserve_size_grammar (host : HostEnv) (vm : VirtualMachine)
    (st : VmAccessorState) (value : String) (n m : Int) :
    (qEndsWithPlus (qLeft value (qIndexOf value ',')) = false →
      vmPrepareSet host vm st VM_FREE_STORAGE_SIZE_MB value =
        ⟨.Failed, st, true, some .valueCannotBeDecreased⟩) ∧
    (qEndsWithPlus (qLeft value (qIndexOf value ',')) = true →
      (parsePositiveInt (qChop1 (qLeft value (qIndexOf value ',')))).ok = false →
      vmPrepareSet host vm st VM_FREE_STORAGE_SIZE_MB value =
        ⟨.Failed,
          { st with freeSizeMb := (parsePositiveInt (qChop1 (qLeft value (qIndexOf value ',')))).out },
          true, (parsePositiveInt (qChop1 (qLeft value (qIndexOf value ',')))).error⟩) ∧
    (qEndsWithPlus (qLeft value (qIndexOf value ',')) = true →
      parsePositiveInt (qChop1 (qLeft value (qIndexOf value ','))) = ⟨true, n, none⟩ →
      qIndexOf value ',' > 0 →
      parsePositiveInt (qMid value (qIndexOf value ',' + 1)) = ⟨true, m, none⟩ →
      m < n →
      vmPrepareSet host vm st VM_FREE_STORAGE_SIZE_MB value =
        ⟨.Failed, { st with freeSizeMb := n, incrementMb := m }, true,
          some .stepCannotBeSmallerThanSize⟩) ∧
    (qEndsWithPlus (qLeft value (qIndexOf value ',')) = true →
      parsePositiveInt (qChop1 (qLeft value (qIndexOf value ','))) = ⟨true, n, none⟩ →
      qIndexOf value ',' ≤ 0 →
      0 ≤ vm.freeStorageSizeMb →
      n ≤ vm.freeStorageSizeMb →
      vmPrepareSet host vm st VM_FREE_STORAGE_SIZE_MB value =
        ⟨.Prepared, { st with freeSizeMb := 0 }, false, none⟩) ∧
    (qEndsWithPlus (qLeft value (qIndexOf value ',')) = true →
      parsePositiveInt (qChop1 (qLeft value (qIndexOf value ','))) = ⟨true, n, none⟩ →
      qIndexOf value ',' > 0 →
      parsePositiveInt (qMid value (qIndexOf value ',' + 1)) = ⟨true, m, none⟩ →
      n ≤ m →
      0 ≤ vm.freeStorageSizeMb →
      n ≤ vm.freeStorageSizeMb →
      vmPrepareSet host vm st VM_FREE_STORAGE_SIZE_MB value =
        ⟨.Prepared, { st with freeSizeMb := 0, incrementMb := m }, false, none⟩) ∧
    (∀ st2 : VmAccessorState, st2.freeSizeMb = 0 →
      ∀ s i : Int, VmSetter.reserveStorageSizeMb s i ∉ (vmSet vm st2).2.2) := by
  have hn1 : ¬ (VM_FREE_STORAGE_SIZE_MB = VM_MEMORY_SIZE_MB) := by decide
  have hn2 : ¬ (VM_FREE_STORAGE_SIZE_MB = VM_SWAP_SIZE_MB) := by decide
  have hn3 : ¬ (VM_FREE_STORAGE_SIZE_MB = VM_CPU_COUNT) := by decide
  have hn4 : ¬ (VM_FREE_STORAGE_SIZE_MB = VM_STORAGE_SIZE_MB) := by decide
  refine ⟨fun ha => ?_, fun hplus hok => ?_, fun hplus hp hci hm hlt => ?_,
    fun hplus hp hci hfree hle => ?_, fun hplus hp hci hm hge hfree hle => ?_,
    fun st2 hz s i => ?_⟩
  · simp [vmPrepareSet, hn1, hn2, hn3, hn4, ha]
  · simp [vmPrepareSet, hn1, hn2, hn3, hn4, hplus, hok]
  · simp [vmPrepareSet, hn1, hn2, hn3, hn4, hplus, hp, hci, hm, hlt, not_lt.mpr (le_of_lt hlt)]
  · have hnci : ¬ qIndexOf value ',' > 0 := not_lt.mpr hci
    have hnfree : ¬ vm.freeStorageSizeMb < 0 := not_lt.mpr hfree
    simp [vmPrepareSet, hn1, hn2, hn3, hn4, hplus, hp, hnci, hnfree, hle]
  · have hnlt : ¬ m < n := not_lt.mpr hge
    have hnfree : ¬ vm.freeStorageSizeMb < 0 := not_lt.mpr hfree
    simp [vmPrepareSet, hn1, hn2, hn3, hn4, hplus, hp, hci, hm, hnlt, hnfree, hle]
  · simp [vmSet, vmSetReserveStep_mem, vmSetStorageStep_mem, vmSetCpuStep_mem,
      vmSetSwapStep_mem, vmSetMemoryStep_mem, hz]

/-- Witness for C6: "50" is rejected for lacking the '+', "200+,100" for a
step smaller than the size, "50+" and "50+,100" are silent no-ops on a
machine with 100 MB free (no power-off required), and a zero staged reserve
never invokes the reserve setter. -/
theorem C6_reserve_size_grammar_witness :
    vmPrepareSet sampleHost sampleVm (.init sampleVm) VM_FREE_STORAGE_SIZE_MB "50" =
      ⟨.Failed, .init sampleVm, true, some .valueCannotBeDecreased⟩ ∧
    vmPrepareSet sampleHost sampleVm (.init sampleVm) VM_FREE_STORAGE_SIZE_MB "200+,100" =
      ⟨.Failed, { VmAccessorState.init sampleVm with freeSizeMb := 200, incrementMb := 100 },
        true, some .stepCannotBeSmallerThanSize⟩ ∧
    vmPrepareSet sampleHost sampleVm (.init sampleVm) VM_FREE_STORAGE_SIZE_MB "50+" =
      ⟨.Prepared, { VmAccessorState.init sampleVm with freeSizeMb := 0 }, false, none⟩ ∧
    vmPrepareSet sampleHost sampleVm (.init sampleVm) VM_FREE_STORAGE_SIZE_MB "50+,100" =
      ⟨.Prepared, { VmAccessorState.init sampleVm with freeSizeMb := 0, incrementMb := 100 },
        false, none⟩ ∧
    VmSetter.reserveStorageSizeMb 5 7 ∉ (vmSet sampleVm (.init sampleVm)).2.2 :=
  ⟨(C6_reserve_size_grammar sampleHost sampleVm (.init sampleVm) "50" 0 0).1 (by decide),
    (C6_reserve_size_grammar sampleHost sampleVm (.init sampleVm) "200+,100" 200 100).2.2.1
      (by decide) (by decide) (by decide) (by decide) (by decide),
    (C6_reserve_size_grammar sampleHost sampleVm (.init sampleVm) "50+" 50 0).2.2.2.1
      (by decide) (by decide) (by decide) (by decide) (by decide),
    (C6_reserve_size_grammar sampleHost sampleVm (.init sampleVm) "50+,100" 50 100).2.2.2.2.1
      (by decide) (by decide) (by decide) (by decide) (by decide) (by decide) (by decide),
    (C6_reserve_size_grammar sampleHost sampleVm (.init sampleVm) "x" 0 0).2.2.2.2.2
      (.init sampleVm) rfl 5 7⟩

/-- C7 (amended): during Apply, every virtual-machine property and the
engine's ssh port, ssh timeout and d-bus port are skipped when the staged
value equals the current value, and the custom host name is skipped when no
host-name assignment was prepared; the build environment filter, however, is
reapplied unconditionally, even when the staged value equals the current
one. -/
theorem C7_amended_unchanged_values_skipped_except_filter
    (vm : VirtualMachine) (st : VmAccessorState) (b : BuildEngineRes)
    (stb : BuildEngineAccessorState) :
    (st.memorySizeMb = vm.memorySizeMb →
      ∀ x, VmSetter.setMemorySizeMb x ∉ (vmSet vm st).2.2) ∧
    (st.swapSizeMb = vm.swapSizeMb →
      ∀ x, VmSetter.setSwapSizeMb x ∉ (vmSet vm st).2.2) ∧
    (st.cpuCount = vm.cpuCount →
      ∀ x, VmSetter.setCpuCount x ∉ (vmSet vm st).2.2) ∧
    (st.storageSizeMb = vm.storageSizeMb →
      ∀ x, VmSetter.setStorageSizeMb x ∉ (vmSet vm st).2.2) ∧
    (stb.hostNameChanged = false →
      ∀ x, SetterEvent.setCustomBuildHostName x ∉ (buildEngineSetOthers b stb).2.2) ∧
    (stb.sshPort = b.sshPort →
      ∀ x, SetterEvent.engineSetSshPort x ∉ (buildEngineSetOthers b stb).2.2) ∧
    (stb.sshTimeout = b.sshTimeout →
      ∀ x, SetterEvent.engineSetSshParametersTimeout x ∉ (buildEngineSetOthers b stb).2.2) ∧
    (stb.dBusPort = b.dBusPort →
      ∀ x, SetterEvent.engineSetDBusPort x ∉ (buildEngineSetOthers b stb).2.2) ∧
    SetterEvent.setBuildEnvironmentFilter stb.buildEnvironmentFilter ∈
      (buildEngineSetOthers b stb).2.2 := by
  refine ⟨fun h x => ?_, fun h x => ?_, fun h x => ?_, fun h x => ?_, fun h x => ?_,
    fun h x => ?_, fun h x => ?_, fun h x => ?_, ?_⟩
  all_goals first
    | (simp [vmSet, vmSetReserveStep_mem, vmSetStorageStep_mem, vmSetCpuStep_mem,
        vmSetSwapStep_mem, vmSetMemoryStep_mem, vmSetMemoryStep_frame,
        vmSetSwapStep_frame, vmSetCpuStep_frame, h])
    | (simp [buildEngineSetOthers, engineDBusPortStep_mem, engineSshTimeoutStep_mem,
        engineSshPortStep_mem, engineFilterStep_mem, engineHostNameStep_mem,
        engineHostNameStep_frame, engineFilterStep_frame, engineSshPortStep_frame,
        engineSshTimeoutStep_frame, h])
    | (simp [buildEngineSetOthers, engineDBusPortStep_mem, engineSshTimeoutStep_mem,
        engineSshPortStep_mem, engineFilterStep_mem, engineHostNameStep_mem,
        engineHostNameStep_frame, engineFilterStep_frame, engineSshPortStep_frame,
        engineSshTimeoutStep_frame])

/-- C7 counterexample: an engine batch assigning environment.forward its
current value stages a value equal to the current one, yet Apply still
invokes Sdk::setBuildEnvironmentFilter for it, contradicting the claim that
unchanged properties are never reapplied. -/
theorem C7_counterexample_unchanged_filter_reapplied :
    (buildEnginePrepareSet sampleExternalEnv sampleEngine (.init sampleEngine)
        ENGINE_BUILD_ENVIRONMENT_FILTER "a").state.buildEnvironmentFilter =
      sampleEngine.sdk.buildEnvironmentFilter ∧
    (setProperties (buildEngineAccessor sampleExternalEnv) sampleTaskEnv (.custom "stop")
        sampleEngine (.init sampleEngine) ["environment.forward=a"]).events =
      [.setBuildEnvironmentFilter ["a"]] := by
  refine ⟨by decide, by decide⟩

/-- Witness for C7 (amended) at a freshly initialized engine accessor: the
unchanged ssh port setter is not invoked while the unchanged build
environment filter setter is. -/
theorem C7_amended_unchanged_values_skipped_except_filter_witness :
    (BuildEngineAccessorState.init sampleEngine).sshPort = sampleEngine.sshPort ∧
    (∀ x, SetterEvent.engineSetSshPort x ∉
      (buildEngineSetOthers sampleEngine (.init sampleEngine)).2.2) ∧
    SetterEvent.setBuildEnvironmentFilter
        (BuildEngineAccessorState.init sampleEngine).buildEnvironmentFilter ∈
      (buildEngineSetOthers sampleEngine (.init sampleEngine)).2.2 :=
  ⟨rfl,
    (C7_amended_unchanged_values_skipped_except_filter sampleVm (.init sampleVm)
      sampleEngine (.init sampleEngine)).2.2.2.2.2.1 rfl,
    (C7_amended_unchanged_values_skipped_except_filter sampleVm (.init sampleVm)
      sampleEngine (.init sampleEngine)).2.2.2.2.2.2.2.2⟩

/-! Lemmas for the build engine collection reconciliation. -/

theorem find?_filter_ne (data : List BuildEngineNewData) (u w : String) (h : w ≠ u) :
    (data.filter (fun d => d.vmUri ≠ u)).find? (fun d => d.vmUri = w) =
      data.find? (fun d => d.vmUri = w) := by
  induction data with
  | nil => rfl
  | cons d rest ih =>
    rw [List.filter_cons]
    by_cases hd : d.vmUri = u
    · rw [if_neg (by simp [hd])]
      rw [List.find?_cons_of_neg _ (by simp [hd]; exact fun hh => h hh.symm)]
      exact ih
    · rw [if_pos (by simp [hd])]
      by_cases hdw : d.vmUri = w
      · rw [List.find?_cons_of_pos _ (by simp [hdw]),
          List.find?_cons_of_pos _ (by simp [hdw])]
      · rw [List.find?_cons_of_neg _ (by simp [hdw]),
          List.find?_cons_of_neg _ (by simp [hdw])]
        exact ih

theorem inNewData_filter_ne (data : List BuildEngineNewData) (u : String)
    (e : BuildEngineEntry) (h : e.vmUri ≠ u) :
    inNewData (data.filter (fun d => d.vmUri ≠ u)) e = inNewData data e := by
  unfold inNewData
  rw [find?_filter_ne data u e.vmUri h]

theorem engineReconcileScan_survivors (fromSys : Bool) (engines : List BuildEngineEntry) :
    ∀ (data : List BuildEngineNewData) (idx : Nat),
    (engines.map (·.vmUri)).Nodup →
    (engineReconcileScan fromSys engines data idx).survivors =
      engines.filter (fun e => inNewData data e || (fromSys && !e.autodetected)) := by
  induction engines with
  | nil => intro data idx _; rfl
  | cons e rest ih =>
    intro data idx hnd
    rw [List.map_cons, List.nodup_cons] at hnd
    obtain ⟨hmem, hrest⟩ := hnd
    unfold engineReconcileScan
    by_cases hdrop : ¬ inNewData data e = true ∧ (¬ fromSys = true ∨ e.autodetected = true)
    · rw [if_pos hdrop]
      have hpred : (inNewData data e || (fromSys && !e.autodetected)) = false := by
        obtain ⟨h1, h2⟩ := hdrop
        rcases h2 with h2 | h2
        · simp at h1 h2
          simp [h1, h2]
        · simp at h1
          simp [h1, h2]
      simp only [List.filter_cons, hpred, Bool.false_eq_true, if_false, ite_false]
      exact ih data idx hrest
    · rw [if_neg hdrop]
      have hpred : (inNewData data e || (fromSys && !e.autodetected)) = true := by
        rw [not_and_or] at hdrop
        rcases hdrop with h1 | h2
        · simp at h1
          simp [h1]
        · rw [not_or] at h2
          obtain ⟨h2a, h2b⟩ := h2
          simp at h2a h2b
          simp [h2a, h2b]
      by_cases hpres : e.autodetected = true ∧ fromSys = true
      · rw [if_pos hpres]
        simp only [List.filter_cons, hpred, if_true, ite_true]
        have hcong : rest.filter
            (fun x => inNewData (data.filter (fun d => d.vmUri ≠ e.vmUri)) x
              || (fromSys && !x.autodetected)) =
            rest.filter (fun x => inNewData data x || (fromSys && !x.autodetected)) := by
          apply List.filter_congr
          intro x hx
          have hne : x.vmUri ≠ e.vmUri := by
            intro hcontra
            exact hmem (hcontra ▸ List.mem_map_of_mem (·.vmUri) hx)
          rw [inNewData_filter_ne data e.vmUri x hne]
        rw [ih (data.filter (fun d => d.vmUri ≠ e.vmUri)) (idx + 1) hrest, hcong]
      · rw [if_neg hpres]
        simp only [List.filter_cons, hpred, if_true, ite_true]
        rw [ih data (idx + 1) hrest]

/-- C3 (amended): in BuildEngineManager::fromMap, an existing engine whose
identity (VM URI plus equal creation timestamp) is absent from the new
authoritative data is dropped exactly when the merge source is user scope or
the engine is auto-detected; equivalently, the survivors are the engines
that are present in the new data or are non-auto-detected entries during a
system-scope merge.  In particular a cached auto-detected engine absent from
new user-scope data is dropped by that user-scope merge regardless of what
system data contains, while a user-created (non-auto-detected) engine
survives a system-scope merge that lacks it. -/
theorem C3_amended_drop_rule (fromSys : Bool) (engines : List BuildEngineEntry)
    (data : List BuildEngineNewData)
    (hnd : (engines.map (·.vmUri)).Nodup) :
    (buildEngineReconcile fromSys engines data).survivors =
      engines.filter (fun e => inNewData data e || (fromSys && !e.autodetected)) :=
  engineReconcileScan_survivors fromSys engines data 0 hnd

/-- C3 counterexample: (1) an auto-detected cached engine absent from new
user-scope data is dropped (with a removal notification), contradicting the
claim's "preserved, not dropped" scenario; (2) a non-auto-detected cached
engine absent from new system-scope data is preserved, contradicting the
claim's rule that absent non-auto-detected entries are dropped. -/
theorem C3_counterexample_drop_rule :
    buildEngineReconcile false [⟨"engine-uri", 1, true⟩] [] =
      ⟨[], [.aboutToRemoveBuildEngine 0], [], []⟩ ∧
    buildEngineReconcile true [⟨"engine-uri", 1, false⟩] [] =
      ⟨[⟨"engine-uri", 1, false⟩], [], [], [⟨"engine-uri", 1, false⟩]⟩ :=
  ⟨by decide, by decide⟩

/-- Witness for C3 (amended): under a user-scope merge with empty new data,
a single auto-detected cached engine is dropped (empty survivor list). -/
theorem C3_amended_drop_rule_witness :
    ([BuildEngineEntry.mk "engine-uri" 1 true].map (·.vmUri)).Nodup ∧
    (buildEngineReconcile false [⟨"engine-uri", 1, true⟩] []).survivors = [] :=
  ⟨by decide, by
    rw [C3_amended_drop_rule false [⟨"engine-uri", 1, true⟩] [] (by decide)]
    decide⟩

/-! Lemmas for build-target reconciliation. -/

theorem findRemove_eq_some (p : α → Bool) :
    ∀ (l : List α) (x : α) (l' : List α), findRemove p l = some (x, l') →
      p x = true ∧ (x :: l').Perm l := by
  intro l
  induction l with
  | nil => intro x l' h; exact absurd h (by simp [findRemove])
  | cons a as ih =>
    intro x l' h
    unfold findRemove at h
    by_cases hp : p a = true
    · rw [if_pos hp] at h
      obtain ⟨rfl, rfl⟩ : a = x ∧ as = l' := by
        have := Option.some.inj h
        exact ⟨congrArg Prod.fst this, congrArg Prod.snd this⟩
      exact ⟨hp, List.Perm.refl _⟩
    · rw [if_neg hp] at h
      cases hfr : findRemove p as with
      | none => rw [hfr] at h; exact absurd h (by simp)
      | some pr =>
        obtain ⟨y, ys⟩ := pr
        rw [hfr] at h
        obtain ⟨rfl, rfl⟩ : y = x ∧ a :: ys = l' := by
          have := Option.some.inj h
          exact ⟨congrArg Prod.fst this, congrArg Prod.snd this⟩
        obtain ⟨hpy, hperm⟩ := ih y ys hfr
        exact ⟨hpy, (List.Perm.swap a y ys).trans (hperm.cons a)⟩

theorem findRemove_isSome_of_mem (p : α → Bool) :
    ∀ (l : List α) (x : α), x ∈ l → p x = true →
      ∃ y l', findRemove p l = some (y, l') := by
  intro l
  induction l with
  | nil => intro x hx; exact absurd hx (List.not_mem_nil x)
  | cons a as ih =>
    intro x hx hpx
    unfold findRemove
    by_cases hp : p a = true
    · exact ⟨a, as, by rw [if_pos hp]⟩
    · rcases List.mem_cons.mp hx with rfl | hxs
      · exact absurd hpx hp
      · obtain ⟨y, l', hfr⟩ := ih x hxs hpx
        exact ⟨y, a :: l', by rw [if_neg hp, hfr]⟩

/-- The dumps surviving the scan together with the unconsumed candidates are
a permutation of the candidate dumps. -/
theorem targetScan_perm (cache : List (BuildTargetDump × BuildTargetData)) :
    ∀ (i : Nat) (rem : List (BuildTargetDump × BuildTargetData)),
      ((targetScan cache i rem).kept.map (·.1) ++
        (targetScan cache i rem).remaining.map (·.1)).Perm (rem.map (·.1)) := by
  induction cache with
  | nil => intro i rem; simp [targetScan]
  | cons cd rest ih =>
    intro i rem
    obtain ⟨dump, data⟩ := cd
    unfold targetScan
    cases hfr : findRemove (fun nt => nt.1 == dump) rem with
    | some pr =>
      obtain ⟨found, rem'⟩ := pr
      obtain ⟨hp, hperm⟩ := findRemove_eq_some _ rem found rem' hfr
      have hfd : found.1 = dump := by simpa using hp
      dsimp only
      refine ((ih (i + 1) rem').cons dump).trans ?_
      have := hperm.map (·.1)
      rw [List.map_cons, hfd] at this
      exact this
    | none =>
      cases hfr2 : findRemove (fun nt => nt.2 == data) rem with
      | some pr =>
        obtain ⟨nt, rem'⟩ := pr
        obtain ⟨hp, hperm⟩ := findRemove_eq_some _ rem nt rem' hfr2
        dsimp only
        refine ((ih (i + 1) rem').cons nt.1).trans ?_
        have := hperm.map (·.1)
        rw [List.map_cons] at this
        exact this
      | none =>
        dsimp only
        exact ih (i + 1) rem

/-- When the cached dumps are a permutation of the candidate dumps, every
cached entry finds an exact match: the scan keeps everything unchanged,
produces no update events, marks nothing for removal, and consumes every
candidate. -/
theorem targetScan_complete (cache : List (BuildTargetDump × BuildTargetData)) :
    ∀ (i : Nat) (rem : List (BuildTargetDump × BuildTargetData)),
      (cache.map (·.1)).Perm (rem.map (·.1)) →
      targetScan cache i rem = ⟨cache, [], [], []⟩ := by
  induction cache with
  | nil =>
    intro i rem h
    have hnil : rem.map (·.1) = [] := h.symm.eq_nil
    have hrem : rem = [] := List.map_eq_nil_iff.mp hnil
    subst hrem; rfl
  | cons cd rest ih =>
    intro i rem h
    obtain ⟨dump, data⟩ := cd
    have hmem : dump ∈ rem.map (·.1) := h.mem_iff.mp (by simp)
    obtain ⟨nt, hnt, hnt1⟩ := List.mem_map.mp hmem
    obtain ⟨found, rem', hfr⟩ :=
      findRemove_isSome_of_mem (fun nt => nt.1 == dump) rem nt hnt (by simp [hnt1])
    obtain ⟨hp, hperm⟩ := findRemove_eq_some _ rem found rem' hfr
    have hfd : found.1 = dump := by simpa using hp
    have hperm' : (rest.map (·.1)).Perm (rem'.map (·.1)) := by
      have h1 : (dump :: rest.map (·.1)).Perm (rem.map (·.1)) := by simpa using h
      have h2 : (dump :: rem'.map (·.1)).Perm (rem.map (·.1)) := by
        have := hperm.map (·.1)
        rw [List.map_cons, hfd] at this
        exact this
      exact (h1.trans h2.symm).cons_inv
    unfold targetScan
    rw [hfr]
    dsimp only
    rw [ih (i + 1) rem' hperm']

theorem map_fst_pair (f : BuildTargetDump → BuildTargetData) :
    ∀ l : List BuildTargetDump, ((l.map fun t => (t, f t)).map (·.1)) = l := by
  intro l
  induction l with
  | nil => rfl
  | cons a as ih => simp [ih]

theorem map_fst_repair (f : BuildTargetDump → BuildTargetData) :
    ∀ l : List (BuildTargetDump × BuildTargetData),
      ((l.map fun nt => (nt.1, f nt.1)).map (·.1)) = l.map (·.1) := by
  intro l
  induction l with
  | nil => rfl
  | cons a as ih => simp [ih]

/-- The dumps in the reconciled collection are a permutation of the
sanitized candidates. -/
theorem updateBuildTargets_dumps_perm (cfg : EngineConfig)
    (current : List (BuildTargetDump × BuildTargetData)) (ntl : List BuildTargetDump) :
    ((updateBuildTargets cfg current ntl).targets.map (·.1)).Perm (sanitizeTargets ntl) := by
  unfold updateBuildTargets
  dsimp only
  rw [List.map_append, map_fst_repair]
  conv_rhs => rw [← map_fst_pair (createTargetData cfg) (sanitizeTargets ntl)]
  exact targetScan_perm current 0
    ((sanitizeTargets ntl).map fun t => (t, createTargetData cfg t))

theorem updateBuildTargets_fst_mem_sanitize (cfg : EngineConfig)
    (current : List (BuildTargetDump × BuildTargetData)) (ntl : List BuildTargetDump) :
    ∀ p ∈ (updateBuildTargets cfg current ntl).targets, p.1 ∈ sanitizeTargets ntl := by
  intro p hp
  exact (updateBuildTargets_dumps_perm cfg current ntl).mem_iff.mp
    (List.mem_map_of_mem (·.1) hp)

theorem mem_sanitizeTargets (ntl : List BuildTargetDump) (t : BuildTargetDump)
    (h : t ∈ sanitizeTargets ntl) :
    t ∈ ntl ∧ t.name ∉ ntl.map (·.origin) ∧
      (t.origin ≠ "" → snapshotNameStartsWithOriginName t = true) := by
  unfold sanitizeTargets at h
  obtain ⟨hmem, hpred⟩ := List.mem_filter.mp h
  refine ⟨hmem, fun hname => ?_, fun horigin => ?_⟩
  · rw [if_pos (by simpa using List.elem_eq_true_of_mem hname)] at hpred
    exact Bool.false_ne_true hpred
  · by_cases hc : (ntl.map (·.origin)).contains t.name = true
    · rw [if_pos (by simpa using hc)] at hpred
      exact absurd hpred Bool.false_ne_true
    · rw [if_neg (by simpa using hc), if_pos horigin] at hpred
      exact hpred

theorem snapshot_name_decompose (t : BuildTargetDump)
    (h : snapshotNameStartsWithOriginName t = true) :
    ∃ suffix : List Char, suffix ≠ [] ∧
      t.name.toList = t.origin.toList ++ '.' :: suffix := by
  unfold snapshotNameStartsWithOriginName at h
  obtain ⟨h1, h2⟩ := of_decide_eq_true h
  refine ⟨t.name.toList.drop (t.origin.toList.length + 1), ?_, ?_⟩
  · intro hnil
    have := List.drop_eq_nil_iff.mp hnil
    omega
  · conv_lhs => rw [← List.take_append_drop (t.origin.toList.length + 1) t.name.toList]
    rw [h1, List.append_assoc, List.singleton_append]

/-- C8: build-target reconciliation sanitizes the candidate list — every
candidate whose name occurs among the candidates' origins is dropped, and
every candidate with a non-empty origin whose name is not origin + "." +
non-empty suffix is dropped — and consequently, after every reconciliation,
no cached target's name serves as any cached target's origin (so none can
simultaneously be an origin and a snapshot leaf), and every cached snapshot
name literally starts with its origin followed by "." and a non-empty
suffix. -/
theorem C8_sanitize_establishes_snapshot_invariant (ntl : List BuildTargetDump)
    (cfg : EngineConfig) (current : List (BuildTargetDump × BuildTargetData)) :
    (∀ t ∈ ntl, t.name ∈ ntl.map (·.origin) → t ∉ sanitizeTargets ntl) ∧
    (∀ t ∈ ntl, t.origin ≠ "" → snapshotNameStartsWithOriginName t = false →
      t ∉ sanitizeTargets ntl) ∧
    (∀ p ∈ (updateBuildTargets cfg current ntl).targets,
      p.1.name ∉ (updateBuildTargets cfg current ntl).targets.map (·.1.origin) ∧
      (p.1.origin ≠ "" → ∃ suffix : List Char, suffix ≠ [] ∧
        p.1.name.toList = p.1.origin.toList ++ '.' :: suffix)) := by
  refine ⟨fun t _ hname hin => ?_, fun t _ horigin hbad hin => ?_, fun p hp => ?_⟩
  · exact (mem_sanitizeTargets ntl t hin).2.1 hname
  · rw [(mem_sanitizeTargets ntl t hin).2.2 horigin] at hbad
    exact Bool.noConfusion hbad
  · have hs := mem_sanitizeTargets ntl p.1 (updateBuildTargets_fst_mem_sanitize cfg current ntl p hp)
    refine ⟨fun hmem => ?_, fun horigin => snapshot_name_decompose p.1 (hs.2.2 horigin)⟩
    obtain ⟨q, hq, hqe⟩ := List.mem_map.mp hmem
    have hq1 := mem_sanitizeTargets ntl q.1 (updateBuildTargets_fst_mem_sanitize cfg current ntl q hq)
    exact hs.2.1 (hqe ▸ List.mem_map_of_mem (·.origin) hq1.1)

/-- Witness for C8: "base" is dropped because it appears as an origin, "bad"
is dropped as a badly named snapshot, and after reconciling from an empty
cache the surviving snapshot's name is not any cached target's origin. -/
theorem C8_sanitize_establishes_snapshot_invariant_witness :
    sampleDumpBase ∉ sanitizeTargets [sampleDumpBase, sampleDumpSnapshot, sampleDumpBad] ∧
    sampleDumpBad ∉ sanitizeTargets [sampleDumpBase, sampleDumpSnapshot, sampleDumpBad] ∧
    (sampleDumpSnapshot, createTargetData sampleTargetsCfg sampleDumpSnapshot).1.name ∉
      (updateBuildTargets sampleTargetsCfg []
        [sampleDumpBase, sampleDumpSnapshot, sampleDumpBad]).targets.map (·.1.origin) :=
  ⟨(C8_sanitize_establishes_snapshot_invariant
      [sampleDumpBase, sampleDumpSnapshot, sampleDumpBad] sampleTargetsCfg []).1
      sampleDumpBase (by decide) (by decide),
    (C8_sanitize_establishes_snapshot_invariant
      [sampleDumpBase, sampleDumpSnapshot, sampleDumpBad] sampleTargetsCfg []).2.1
      sampleDumpBad (by decide) (by decide) (by decide),
    ((C8_sanitize_establishes_snapshot_invariant
      [sampleDumpBase, sampleDumpSnapshot, sampleDumpBad] sampleTargetsCfg []).2.2
      (sampleDumpSnapshot, createTargetData sampleTargetsCfg sampleDumpSnapshot)
      (by decide)).1⟩

/-- C9: build-target reconciliation is idempotent — a second run with the
same authoritative candidate list leaves the collection unchanged and emits
zero notifications: no in-place updates with wrapper reinitialization, no
aboutToRemoveBuildTarget and no buildTargetAdded. -/
theorem C9_reconciliation_idempotent (cfg : EngineConfig)
    (current : List (BuildTargetDump × BuildTargetData)) (ntl : List BuildTargetDump) :
    (updateBuildTargets cfg (updateBuildTargets cfg current ntl).targets ntl).targets =
      (updateBuildTargets cfg current ntl).targets ∧
    (updateBuildTargets cfg (updateBuildTargets cfg current ntl).targets ntl).events = [] := by
  have hperm := updateBuildTargets_dumps_perm cfg current ntl
  generalize hc : (updateBuildTargets cfg current ntl).targets = c1 at hperm ⊢
  have hcomplete := targetScan_complete c1 0
    ((sanitizeTargets ntl).map fun t => (t, createTargetData cfg t))
    (by rw [map_fst_pair]; exact hperm)
  constructor
  · unfold updateBuildTargets
    dsimp only
    rw [hcomplete]
    simp
  · unfold updateBuildTargets
    dsimp only
    rw [hcomplete]
    simp

end Sfdk
